import Mathlib

/-!
Verification of the financial-ratio computation engine of
`app/report-extraction/index_calcuration.py`.

The engine manipulates JSON-like dynamic values (parsed financial
statements).  We embed those values as the inductive type `J`; Python
`None` is `J.null`, numbers are rationals, objects are association lists
in insertion order.  A Python runtime exception (`AttributeError` from
`.get` on a non-dict, `TypeError` from arithmetic on a non-number) is
modelled as `Except.error ()`; every function of the source file becomes
a total Lean function into `Except Unit J`.
-/

/-- JSON-like dynamic value.  `J.null` is Python `None`. -/
inductive J : Type where
  | null : J
  | num : ℚ → J
  | str : String → J
  | arr : List J → J
  | obj : List (String × J) → J

/-- Python truthiness `bool(v)` of a value. -/
def jTruthy : J → Bool
  | J.null => false
  | J.num q => if q = 0 then false else true
  | J.str s => if s = "" then false else true
  | J.arr [] => false
  | J.arr (_ :: _) => true
  | J.obj [] => false
  | J.obj (_ :: _) => true

/-- Python `v == 0` for the values reaching `_safe_div`'s zero test. -/
def jEq0 : J → Bool
  | J.num q => if q = 0 then true else false
  | _ => false

/-- First-match association-list lookup: Python dict indexing
(insertion-ordered, no duplicate keys are ever constructed). -/
def jLookup : List (String × J) → String → Option J
  | [], _ => none
  | (k, v) :: rest, key => if k = key then some v else jLookup rest key

/-- Python `d.get(k)`: `None` when the key is missing; raises
`AttributeError` unless `d` is a dict. -/
def dget : J → String → Except Unit J
  | J.obj m, k => .ok ((jLookup m k).getD J.null)
  | _, _ => .error ()

/-- Python `d.get(k, default)`: the default applies only when the key is
missing (a stored `None` is returned as `None`). -/
def dgetD : J → String → J → Except Unit J
  | J.obj m, k, dflt => .ok ((jLookup m k).getD dflt)
  | _, _, _ => .error ()

/-- Python `v or {}`. -/
def jOrEmpty (v : J) : J := if jTruthy v then v else J.obj []

/-- Python `E if guard else None` (the computation is pure, so passing
`E` by value is equivalent to the conditional evaluation). -/
def ifTruthy (guard : J) (e : Except Unit J) : Except Unit J :=
  if jTruthy guard then e else .ok J.null

/-- Floor of a rational (Euclidean division of numerator by denominator). -/
def ratFloor (x : ℚ) : ℤ := Int.ediv x.num x.den

/-- Python `round` to the nearest integer, ties to the even neighbour
(banker's rounding). -/
def pyRound (x : ℚ) : ℤ :=
  let lo : ℤ := ratFloor x
  let fr : ℚ := x - lo
  if fr < 1/2 then lo
  else if 1/2 < fr then lo + 1
  else if lo % 2 = 0 then lo else lo + 1

/-- Python `round(x, 2)`: round to two decimal places. -/
def round2 (x : ℚ) : ℚ := (pyRound (x * 100) : ℚ) / 100

/-- The `_safe_div(a, b)`: `None` if either operand is `None` or `b == 0`,
otherwise `a / b` (raising on non-numeric operands). -/
def safe_div : J → J → Except Unit J
  | J.null, _ => .ok J.null
  | _, J.null => .ok J.null
  | a, b =>
    if jEq0 b then .ok J.null
    else
      match a, b with
      | J.num x, J.num y => .ok (J.num (x / y))
      | _, _ => .error ()

/-- The `_safe_sub(a, b)`: `None` if either operand is `None`. -/
def safe_sub : J → J → Except Unit J
  | J.null, _ => .ok J.null
  | _, J.null => .ok J.null
  | J.num a, J.num b => .ok (J.num (a - b))
  | _, _ => .error ()

/-- Python `v is not None`. -/
def jIsNotNone : J → Bool
  | J.null => false
  | _ => true

/-- Python `sum` over a list of values (raises on a non-number). -/
def sumNums : List J → Except Unit ℚ
  | [] => .ok 0
  | J.num q :: rest => do
    let s ← sumNums rest
    .ok (q + s)
  | _ :: _ => .error ()

/-- The `_safe_add(*values)`: drop the `None`s; `None` when all operands are
`None`, otherwise the sum of the remaining operands. -/
def safe_add (values : List J) : Except Unit J :=
  match values.filter jIsNotNone with
  | [] => .ok J.null
  | nums => do
    let s ← sumNums nums
    .ok (J.num s)

/-- The `_avg(val_curr, val_prev)`: period average; degrades to whichever
single value is present. -/
def avg : J → J → Except Unit J
  | J.null, p => .ok p
  | c, J.null => .ok c
  | J.num c, J.num p => .ok (J.num ((c + p) / 2))
  | _, _ => .error ()

/-- The `_pct(value)`: ratio to rounded percentage, `None`-preserving. -/
def pct : J → Except Unit J
  | J.null => .ok J.null
  | J.num q => .ok (J.num (round2 (q * 100)))
  | _ => .error ()

/-- The `_round_val(value)` with the default `ndigits=2`. -/
def round_val : J → Except Unit J
  | J.null => .ok J.null
  | J.num q => .ok (J.num (round2 q))
  | _ => .error ()

/-- The `abs(prev) if prev else None` (the growth denominator). -/
def absIfTruthy : J → Except Unit J
  | J.null => .ok J.null
  | J.num q => if q = 0 then .ok J.null else .ok (J.num |q|)
  | J.str s => if s = "" then .ok J.null else .error ()
  | J.arr [] => .ok J.null
  | J.arr (_ :: _) => .error ()
  | J.obj [] => .ok J.null
  | J.obj (_ :: _) => .error ()

/-- The `_get_pl(year_data)`: `year_data.get("損益計算書", {})`. -/
def get_pl (yd : J) : Except Unit J := dgetD yd "損益計算書" (J.obj [])

/-- The `_get_bs(year_data)`: `year_data.get("貸借対照表", {})`. -/
def get_bs (yd : J) : Except Unit J := dgetD yd "貸借対照表" (J.obj [])

/-- The `_get_cf(year_data)`: `year_data.get("キャッシュ・フロー計算書", {})`. -/
def get_cf (yd : J) : Except Unit J := dgetD yd "キャッシュ・フロー計算書" (J.obj [])

/-- The `_売上高(pl)`: `(pl.get("売上高") or {}).get("合計")`. -/
def acc_revenue (pl : J) : Except Unit J := do
  let g ← dget pl "売上高"
  dget (jOrEmpty g) "合計"

/-- The `_売上原価(pl)`: `(pl.get("売上原価") or {}).get("合計")`. -/
def acc_cogs (pl : J) : Except Unit J := do
  let g ← dget pl "売上原価"
  dget (jOrEmpty g) "合計"

/-- The `_売上総利益(pl)`: `(pl.get("売上総利益") or {}).get("合計")`. -/
def acc_gross_profit (pl : J) : Except Unit J := do
  let g ← dget pl "売上総利益"
  dget (jOrEmpty g) "合計"

/-- The `_販管費(pl)`: `(pl.get("販売費及び一般管理費") or {}).get("合計")`. -/
def acc_sga (pl : J) : Except Unit J := do
  let g ← dget pl "販売費及び一般管理費"
  dget (jOrEmpty g) "合計"

/-- The `_販管費内訳(pl, key)`:
`((pl.get("販売費及び一般管理費") or {}).get("内訳") or {}).get(key)`. -/
def acc_sga_detail (pl : J) (key : String) : Except Unit J := do
  let g ← dget pl "販売費及び一般管理費"
  let u ← dget (jOrEmpty g) "内訳"
  dget (jOrEmpty u) key

/-- The `_総資産(bs)`: `(bs.get("資産") or {}).get("総資産")`. -/
def acc_total_assets (bs : J) : Except Unit J := do
  let g ← dget bs "資産"
  dget (jOrEmpty g) "総資産"

/-- The `_流動資産(bs)`: `((bs.get("資産") or {}).get("流動資産") or {}).get("合計")`. -/
def acc_current_assets (bs : J) : Except Unit J := do
  let g ← dget bs "資産"
  let ca ← dget (jOrEmpty g) "流動資産"
  dget (jOrEmpty ca) "合計"

/-- The `_流動資産内訳(bs, key)`:
`(((bs.get("資産") or {}).get("流動資産") or {}).get("内訳") or {}).get(key)`. -/
def acc_current_assets_detail (bs : J) (key : String) : Except Unit J := do
  let g ← dget bs "資産"
  let ca ← dget (jOrEmpty g) "流動資産"
  let u ← dget (jOrEmpty ca) "内訳"
  dget (jOrEmpty u) key

/-- The `_流動負債(bs)`: via `liab = (bs.get("負債・純資産") or {}).get("負債") or {}`,
then `((liab.get("内訳") or {}).get("流動負債") or {}).get("合計")`. -/
def acc_current_liab (bs : J) : Except Unit J := do
  let na ← dget bs "負債・純資産"
  let liab0 ← dget (jOrEmpty na) "負債"
  let u ← dget (jOrEmpty liab0) "内訳"
  let cl ← dget (jOrEmpty u) "流動負債"
  dget (jOrEmpty cl) "合計"

/-- The `_流動負債内訳(bs, key)`. -/
def acc_current_liab_detail (bs : J) (key : String) : Except Unit J := do
  let na ← dget bs "負債・純資産"
  let liab0 ← dget (jOrEmpty na) "負債"
  let u ← dget (jOrEmpty liab0) "内訳"
  let cl ← dget (jOrEmpty u) "流動負債"
  let u2 ← dget (jOrEmpty cl) "内訳"
  dget (jOrEmpty u2) key

/-- The `_固定負債内訳(bs, key)`. -/
def acc_fixed_liab_detail (bs : J) (key : String) : Except Unit J := do
  let na ← dget bs "負債・純資産"
  let liab0 ← dget (jOrEmpty na) "負債"
  let u ← dget (jOrEmpty liab0) "内訳"
  let fl ← dget (jOrEmpty u) "固定負債"
  let u2 ← dget (jOrEmpty fl) "内訳"
  dget (jOrEmpty u2) key

/-- The `_純資産(bs)`: `((bs.get("負債・純資産") or {}).get("純資産") or {}).get("合計")`. -/
def acc_net_assets (bs : J) : Except Unit J := do
  let na ← dget bs "負債・純資産"
  let eq0 ← dget (jOrEmpty na) "純資産"
  dget (jOrEmpty eq0) "合計"

/-- The `_pct(_safe_div(a, b))`, the pervasive percentage-of-ratio pattern. -/
def pctDiv (a b : J) : Except Unit J := do
  let r ← safe_div a b
  pct r

/-- The `calc_profitability(pl)` (収益性指標). -/
def calc_profitability (pl : J) : Except Unit J := do
  let revenue ← acc_revenue pl
  let cogs ← acc_cogs pl
  let gross ← acc_gross_profit pl
  let sga ← acc_sga pl
  let op_income ← dget pl "営業利益"
  let ord_income ← dget pl "経常利益"
  let net_income ← dget pl "当期純利益"
  let dep ← acc_sga_detail pl "販売費及び一般管理費_減価償却費"
  let v1 ← pctDiv gross revenue
  let v2 ← pctDiv cogs revenue
  let v3 ← pctDiv sga revenue
  let v4 ← pctDiv op_income revenue
  let v5 ← pctDiv ord_income revenue
  let v6 ← pctDiv net_income revenue
  let v7 ← safe_add [op_income, dep]
  .ok (J.obj [("売上総利益率", v1), ("原価率", v2), ("販管費率", v3),
    ("営業利益率", v4), ("経常利益率", v5), ("純利益率", v6), ("EBITDA", v7)])

/-- One growth entry:
`_pct(_safe_div(_safe_sub(curr, prev), abs(prev) if prev else None))`. -/
def growthEntry (curr prev : J) : Except Unit J := do
  let diff ← safe_sub curr prev
  let den ← absIfTruthy prev
  let r ← safe_div diff den
  pct r

/-- The body of `calc_growth` once `pl_prev is None` has been ruled
out: the four YoY pairs, then the four growth entries. -/
def calc_growth_body (pl_curr pp : J) : Except Unit J := do
  let c1 ← acc_revenue pl_curr
  let p1 ← acc_revenue pp
  let c2 ← dget pl_curr "営業利益"
  let p2 ← dget pp "営業利益"
  let c3 ← dget pl_curr "経常利益"
  let p3 ← dget pp "経常利益"
  let c4 ← dget pl_curr "当期純利益"
  let p4 ← dget pp "当期純利益"
  let g1 ← growthEntry c1 p1
  let g2 ← growthEntry c2 p2
  let g3 ← growthEntry c3 p3
  let g4 ← growthEntry c4 p4
  .ok (J.obj [("売上高成長率", g1), ("営業利益成長率", g2),
    ("経常利益成長率", g3), ("当期純利益成長率", g4)])

/-- The `calc_growth(pl_curr, pl_prev)` (成長性指標); returns `None` — not a
mapping — when `pl_prev is None`. -/
def calc_growth (pl_curr pl_prev : J) : Except Unit J :=
  match pl_prev with
  | J.null => .ok J.null
  | pp => calc_growth_body pl_curr pp

/-- The `calc_cost_structure(pl)` (コスト構造・固定費分析). -/
def calc_cost_structure (pl : J) : Except Unit J := do
  let revenue ← acc_revenue pl
  let gross ← acc_gross_profit pl
  let personnel ← acc_sga_detail pl "販売費及び一般管理費_人件費"
  let dep ← acc_sga_detail pl "販売費及び一般管理費_減価償却費"
  let v1 ← pctDiv personnel revenue
  let v2 ← pctDiv dep revenue
  let v3 ← safe_sub gross personnel
  .ok (J.obj [("人件費率", v1), ("減価償却費率", v2),
    ("付加価値額（売上総利益−人件費）", v3)])

/-- The `calc_efficiency(pl, bs_curr, bs_prev)` (効率性指標). -/
def calc_efficiency (pl bs_curr bs_prev : J) : Except Unit J := do
  let revenue ← acc_revenue pl
  let net_income ← dget pl "当期純利益"
  let taCurr ← acc_total_assets bs_curr
  let taPrev ← ifTruthy bs_prev (acc_total_assets bs_prev)
  let avg_ta ← avg taCurr taPrev
  let eqCurr ← acc_net_assets bs_curr
  let eqPrev ← ifTruthy bs_prev (acc_net_assets bs_prev)
  let avg_eq ← avg eqCurr eqPrev
  let d1 ← safe_div revenue avg_ta
  let v1 ← round_val d1
  let v2 ← pctDiv net_income avg_ta
  let v3 ← pctDiv net_income avg_eq
  .ok (J.obj [("総資産回転率", v1), ("ROA", v2), ("ROE", v3)])

/-- The `calc_safety(bs)` (安全性・財務健全性). -/
def calc_safety (bs : J) : Except Unit J := do
  let ca ← acc_current_assets bs
  let cl ← acc_current_liab bs
  let ta ← acc_total_assets bs
  let eq ← acc_net_assets bs
  let cash ← acc_current_assets_detail bs "流動資産_現金及び預金"
  let ar ← acc_current_assets_detail bs "流動資産_受取手形及び売掛金"
  let constructionAr ← acc_current_assets_detail bs "流動資産_完成工事未収入金"
  let quick_assets ← safe_add [cash, ar, constructionAr]
  let short_debt ← acc_current_liab_detail bs "流動負債_短期借入金"
  let short_lt_debt ← acc_current_liab_detail bs "流動負債_1年内返済予定長期借入金"
  let long_debt ← acc_fixed_liab_detail bs "固定負債_長期借入金"
  let interest_bearing ← safe_add [short_debt, short_lt_debt, long_debt]
  let v1 ← pctDiv ca cl
  let v2 ← pctDiv quick_assets cl
  let v3 ← pctDiv eq ta
  let d4 ← safe_div interest_bearing eq
  let v4 ← round_val d4
  .ok (J.obj [("流動比率", v1), ("当座比率", v2), ("自己資本比率", v3),
    ("D/Eレシオ", v4)])

/-- The `calc_cashflow(pl, cf, cf_prev)` (キャッシュフロー関連指標). -/
def calc_cashflow (pl cf cf_prev : J) : Except Unit J := do
  let revenue ← acc_revenue pl
  let op_income ← dget pl "営業利益"
  let dep ← acc_sga_detail pl "販売費及び一般管理費_減価償却費"
  let ebitda ← safe_add [op_income, dep]
  let op_cf ← dget cf "営業活動によるキャッシュ・フロー"
  let inv_cf ← dget cf "投資活動によるキャッシュ・フロー"
  let end_cash ← dget cf "現金及び現金同等物期末残高"
  let begin_cash ← ifTruthy cf_prev (dget cf_prev "現金及び現金同等物期末残高")
  let v1 ← pctDiv op_cf revenue
  let v2 ← safe_add [op_cf, inv_cf]
  let d3 ← safe_div op_cf ebitda
  let v3 ← round_val d3
  let v4 ← safe_sub end_cash begin_cash
  .ok (J.obj [("営業CFマージン", v1), ("フリーキャッシュフロー", v2),
    ("営業CF÷EBITDA", v3), ("現金増減額", v4)])

/-- The day-count step of a turnover figure: multiply a surviving ratio
by 365 and round (`_round_val(d * 365)` guarded by `is not None`). -/
def mul365Round : J → Except Unit J
  | J.null => .ok J.null
  | J.num q => round_val (J.num (q * 365))
  | _ => .error ()

/-- The `_round_val(_safe_div(a, b) * 365) if _safe_div(a, b) is not None
else None` (a turnover-day figure). -/
def turnoverDays (a b : J) : Except Unit J := do
  let d ← safe_div a b
  mul365Round d

/-- The `calc_construction(pl, bs_curr, bs_prev)` (建設業特有指標). -/
def calc_construction (pl bs_curr bs_prev : J) : Except Unit J := do
  let constr_ar ← acc_current_assets_detail bs_curr "流動資産_完成工事未収入金"
  let wip ← acc_current_assets_detail bs_curr "流動資産_未成工事支出金"
  let constr_ap ← acc_current_liab_detail bs_curr "流動負債_工事未払金"
  let adv_received ← acc_current_liab_detail bs_curr "流動負債_未成工事受入金"
  let s1 ← safe_add [constr_ar, wip]
  let s2 ← safe_add [constr_ap, adv_received]
  let construction_wc ← safe_sub s1 s2
  let ca ← acc_current_assets bs_curr
  let cash ← acc_current_assets_detail bs_curr "流動資産_現金及び預金"
  let cl ← acc_current_liab bs_curr
  let short_debt ← acc_current_liab_detail bs_curr "流動負債_短期借入金"
  let n1 ← safe_sub ca cash
  let n2 ← safe_sub cl short_debt
  let net_wc ← safe_sub n1 n2
  let revenue ← acc_revenue pl
  let arc1 ← acc_current_assets_detail bs_curr "流動資産_受取手形及び売掛金"
  let arc2 ← acc_current_assets_detail bs_curr "流動資産_完成工事未収入金"
  let ar_curr ← safe_add [arc1, arc2]
  let ar_prev ← ifTruthy bs_prev (do
    let a1 ← acc_current_assets_detail bs_prev "流動資産_受取手形及び売掛金"
    let a2 ← acc_current_assets_detail bs_prev "流動資産_完成工事未収入金"
    safe_add [a1, a2])
  let avg_ar ← avg ar_curr ar_prev
  let ar_days ← turnoverDays avg_ar revenue
  let cogs ← acc_cogs pl
  let ap_curr ← acc_current_liab_detail bs_curr "流動負債_工事未払金"
  let ap_prev ← ifTruthy bs_prev
    (acc_current_liab_detail bs_prev "流動負債_工事未払金")
  let avg_ap ← avg ap_curr ap_prev
  let ap_days ← turnoverDays avg_ap cogs
  .ok (J.obj [("工事運転資本", construction_wc), ("ネット運転資本（簡易）", net_wc),
    ("売上債権回転期間（日）", ar_days), ("仕入債務回転期間（日）", ap_days)])

/-- One iteration of the `calculate_indices` loop: the `year_result`
panel for `year_data`, given the raw previous list element `prev_data`
(`None` for the first element). -/
def yearPanel (prev_data year_data : J) : Except Unit J := do
  let year ← dget year_data "YEAR"
  let pl ← get_pl year_data
  let bs ← get_bs year_data
  let cf ← get_cf year_data
  let pl_prev ← ifTruthy prev_data (get_pl prev_data)
  let bs_prev ← ifTruthy prev_data (get_bs prev_data)
  let cf_prev ← ifTruthy prev_data (get_cf prev_data)
  let prof ← calc_profitability pl
  let growth ← calc_growth pl pl_prev
  let cost ← calc_cost_structure pl
  let eff ← calc_efficiency pl bs bs_prev
  let safety ← calc_safety bs
  let cfi ← calc_cashflow pl cf cf_prev
  let constr ← calc_construction pl bs bs_prev
  .ok (J.obj [("YEAR", year), ("収益性指標", prof), ("成長性指標", growth),
    ("コスト構造・固定費分析", cost), ("効率性指標", eff),
    ("安全性・財務健全性", safety), ("キャッシュフロー関連指標", cfi),
    ("建設業特有指標", constr)])

/-- The `for i, year_data in enumerate(fin_years)` loop: each element is
processed with the list element preceding it (`fin_years[i - 1]`). -/
def processYears : J → List J → Except Unit (List J)
  | _, [] => .ok []
  | prev, yd :: rest => do
    let panel ← yearPanel prev yd
    let more ← processYears yd rest
    .ok (panel :: more)

/-- The elements produced by `enumerate(fin_years)`: a list iterates
its elements; an empty dict or empty string iterates nothing; iterating
a non-empty dict or string makes the loop body raise on its first
string element, and a number or `None` is not iterable at all. -/
def iterYears : J → Except Unit (List J)
  | J.arr xs => .ok xs
  | J.obj [] => .ok []
  | J.str "" => .ok []
  | _ => .error ()

/-- The `calculate_indices(company_data)`: all indicators of one company,
year by year. -/
def calculate_indices (company_data : J) : Except Unit J := do
  let fin_years ← dgetD company_data "財務データ" (J.arr [])
  let years ← iterYears fin_years
  let panels ← processYears J.null years
  let info ← dgetD company_data "企業情報" (J.obj [])
  .ok (J.obj [("企業情報", info), ("指標", J.arr panels)])

/-- Field lookup inside a computed object (statement-side helper). -/
def getField (v : J) (k : String) : Option J :=
  match v with
  | J.obj m => jLookup m k
  | _ => none

/-- Indicator lookup inside the result of a (possibly failing)
computation (statement-side helper). -/
def indicator (r : Except Unit J) (key : String) : Option J :=
  match r with
  | .ok v => getField v key
  | .error _ => none

/-- A value is a number or `None` — the only values ever stored in an
indicator slot. -/
def NN (v : J) : Prop := v = J.null ∨ ∃ q : ℚ, v = J.num q

/-- Statement-side shape of a percentage indicator slot: absent, or some
underlying ratio times 100, rounded to two decimals. -/
def pctShaped (o : Option J) : Prop :=
  o = some J.null ∨ ∃ r : ℚ, o = some (J.num (round2 (r * 100)))

/-- Statement-side shape of a plain-ratio indicator slot: absent, or
some value rounded to two decimals. -/
def ratioShaped (o : Option J) : Prop :=
  o = some J.null ∨ ∃ r : ℚ, o = some (J.num (round2 r))

/-- The numeric content of a value, if any (statement-side helper used
to express "the sum of the present operands"). -/
def toQ : J → Option ℚ
  | J.num q => some q
  | _ => none

/-- A company record with one completely empty statement-year. -/
def company0 : J := J.obj [("財務データ", J.arr [J.obj []])]

/-- The panel `calculate_indices` produces for a completely empty first
statement-year: full shape, every indicator absent, growth `None`. -/
def emptyPanel : J := J.obj [
  ("YEAR", J.null),
  ("収益性指標", J.obj [("売上総利益率", J.null), ("原価率", J.null),
    ("販管費率", J.null), ("営業利益率", J.null), ("経常利益率", J.null),
    ("純利益率", J.null), ("EBITDA", J.null)]),
  ("成長性指標", J.null),
  ("コスト構造・固定費分析", J.obj [("人件費率", J.null), ("減価償却費率", J.null),
    ("付加価値額（売上総利益−人件費）", J.null)]),
  ("効率性指標", J.obj [("総資産回転率", J.null), ("ROA", J.null), ("ROE", J.null)]),
  ("安全性・財務健全性", J.obj [("流動比率", J.null), ("当座比率", J.null),
    ("自己資本比率", J.null), ("D/Eレシオ", J.null)]),
  ("キャッシュフロー関連指標", J.obj [("営業CFマージン", J.null),
    ("フリーキャッシュフロー", J.null), ("営業CF÷EBITDA", J.null),
    ("現金増減額", J.null)]),
  ("建設業特有指標", J.obj [("工事運転資本", J.null), ("ネット運転資本（簡易）", J.null),
    ("売上債権回転期間（日）", J.null), ("仕入債務回転期間（日）", J.null)])]

/-- Balance sheet with current assets 500 and current liabilities 0
(spec Example 4). -/
def bsZeroCL : J :=
  J.obj [("資産", J.obj [("流動資産", J.obj [("合計", J.num 500)])]),
    ("負債・純資産", J.obj [
      ("負債", J.obj [("内訳", J.obj [("流動負債", J.obj [("合計", J.num 0)])])]),
      ("純資産", J.obj [("合計", J.num 250)])])]

/-- Income statement with only net income 100 (spec Example 5). -/
def plROA : J := J.obj [("当期純利益", J.num 100)]

/-- Balance sheet with only total assets 1000 (spec Example 5). -/
def bsROA : J := J.obj [("資産", J.obj [("総資産", J.num 1000)])]

/-- Income statement with revenue 800 (spec Example 2, previous year). -/
def plRev800 : J := J.obj [("売上高", J.obj [("合計", J.num 800)])]

/-- Income statement with revenue 1000 (spec Example 2, current year). -/
def plRev1000 : J := J.obj [("売上高", J.obj [("合計", J.num 1000)])]

/-- Income statement with operating income −100 (spec Example 3,
previous year). -/
def plOpNeg100 : J := J.obj [("営業利益", J.num (-100))]

/-- Income statement with operating income 50 (spec Example 3, current
year). -/
def plOp50 : J := J.obj [("営業利益", J.num 50)]

/-- Income statement with operating income 80 and no depreciation
(spec Example 6). -/
def plOpOnly : J := J.obj [("営業利益", J.num 80)]

/-- Whether a value is a mapping (statement-side helper). -/
def isObjJ : J → Bool
  | J.obj _ => true
  | _ => false

/-- The common access pattern of the field-accessor layer, as a path:
a first direct `.get`, then `( … or {}).get` at every further level.
Every field accessor of the source is an instance of this. -/
def accPath (v : J) : List String → Except Unit J
  | [] => .ok v
  | [k] => dget v k
  | k :: ks => do
    let w ← dget v k
    accPath (jOrEmpty w) ks

/-- A group value navigated as `(v or {}).get(…)` whose own entries are
read as leaves.  `P` constrains the entry list when the value is a
mapping; any falsy value is also fine (the `or {}` guard absorbs it). -/
def wfFalsyOr (P : List (String × J) → Prop) : J → Prop
  | J.null => True
  | J.num q => q = 0
  | J.str s => s = ""
  | J.arr xs => xs = []
  | J.obj m => P m

/-- The claim's hypothesis on one leaf slot: a number or absent. -/
def NNopt : Option J → Prop
  | none => True
  | some v => NN v

/-- Well-formed leaf group: every entry is a number or `None`. -/
def wfLeafGroupV : J → Prop := wfFalsyOr (fun m => ∀ kv ∈ m, NN kv.2)

/-- Well-formed total-plus-breakdown group (販売費及び一般管理費,
流動資産, 流動負債): `合計` is a leaf, `内訳` is a leaf group. -/
def wfGroupTDV : J → Prop := wfFalsyOr (fun m =>
  NNopt (jLookup m "合計") ∧ wfLeafGroupV ((jLookup m "内訳").getD J.null))

/-- Well-formed 固定負債 group: `内訳` is a leaf group. -/
def wfFixedLiabV : J → Prop := wfFalsyOr (fun m =>
  wfLeafGroupV ((jLookup m "内訳").getD J.null))

/-- Well-formed 純資産 group: `合計` is a leaf. -/
def wfNetAssetsV : J → Prop := wfFalsyOr (fun m => NNopt (jLookup m "合計"))

/-- Well-formed 負債 side: its `内訳` holds 流動負債 and 固定負債. -/
def wfLiabUchV : J → Prop := wfFalsyOr (fun m =>
  wfGroupTDV ((jLookup m "流動負債").getD J.null) ∧
  wfFixedLiabV ((jLookup m "固定負債").getD J.null))

/-- Well-formed 負債 group. -/
def wfLiabV : J → Prop := wfFalsyOr (fun m =>
  wfLiabUchV ((jLookup m "内訳").getD J.null))

/-- Well-formed 資産 side: `総資産` is a leaf, `流動資産` a group. -/
def wfAssetsV : J → Prop := wfFalsyOr (fun m =>
  NNopt (jLookup m "総資産") ∧ wfGroupTDV ((jLookup m "流動資産").getD J.null))

/-- Well-formed 負債・純資産 side. -/
def wfNAV : J → Prop := wfFalsyOr (fun m =>
  wfLiabV ((jLookup m "負債").getD J.null) ∧
  wfNetAssetsV ((jLookup m "純資産").getD J.null))

/-- Well-formed income statement (claim hypothesis: statement groups are
mappings — or missing — and statement values numbers or absent). -/
def wfPL (pl : J) : Prop := ∃ m, pl = J.obj m ∧
  wfLeafGroupV ((jLookup m "売上高").getD J.null) ∧
  wfLeafGroupV ((jLookup m "売上原価").getD J.null) ∧
  wfLeafGroupV ((jLookup m "売上総利益").getD J.null) ∧
  wfGroupTDV ((jLookup m "販売費及び一般管理費").getD J.null) ∧
  NNopt (jLookup m "営業利益") ∧ NNopt (jLookup m "経常利益") ∧
  NNopt (jLookup m "当期純利益")

/-- Well-formed balance sheet. -/
def wfBS (bs : J) : Prop := ∃ m, bs = J.obj m ∧
  wfAssetsV ((jLookup m "資産").getD J.null) ∧
  wfNAV ((jLookup m "負債・純資産").getD J.null)

/-- Well-formed cash-flow statement: a flat mapping of leaves. -/
def wfCF (cf : J) : Prop := ∃ m, cf = J.obj m ∧ ∀ kv ∈ m, NN kv.2

/-- A statement slot of a year record: missing, or well-formed. -/
def wfStmt (P : J → Prop) : Option J → Prop
  | none => True
  | some v => P v

/-- Well-formed statement-year record. -/
def wfYear (yd : J) : Prop := ∃ m, yd = J.obj m ∧
  wfStmt wfPL (jLookup m "損益計算書") ∧
  wfStmt wfBS (jLookup m "貸借対照表") ∧
  wfStmt wfCF (jLookup m "キャッシュ・フロー計算書")

/-- The `財務データ` slot: missing, or a list of well-formed years. -/
def wfFin : Option J → Prop
  | none => True
  | some (J.arr xs) => ∀ y ∈ xs, wfYear y
  | some _ => False

/-- Well-formed company record (the hypothesis of the safety claim). -/
def wfCompany (cd : J) : Prop := ∃ m, cd = J.obj m ∧
  wfFin (jLookup m "財務データ")

section Lemmas

theorem ok_bind {α β : Type} (a : α) (f : α → Except Unit β) :
    (Except.ok a : Except Unit α) >>= f = f a := rfl

theorem error_bind {α β : Type} (u : Unit) (f : α → Except Unit β) :
    (Except.error u : Except Unit α) >>= f = Except.error u := rfl

@[simp] theorem toQ_num (q : ℚ) : toQ (J.num q) = some q := rfl

@[simp] theorem toQ_null : toQ J.null = none := rfl

theorem bind_eq_ok {α β : Type} {e : Except Unit α} {f : α → Except Unit β}
    {b : β} (h : e >>= f = .ok b) : ∃ a, e = .ok a ∧ f a = .ok b := by
  cases e with
  | error u => rw [error_bind] at h; exact absurd h (by simp)
  | ok a => exact ⟨a, rfl, h⟩

theorem safe_sub_null_right (a : J) : safe_sub a J.null = .ok J.null := by
  cases a <;> rfl

theorem safe_sub_null_left (b : J) : safe_sub J.null b = .ok J.null := by
  cases b <;> rfl

theorem safe_div_null_left (b : J) : safe_div J.null b = .ok J.null := by
  cases b <;> rfl

theorem safe_div_null_right (a : J) : safe_div a J.null = .ok J.null := by
  cases a <;> rfl

theorem safe_div_num_zero (a : J) : safe_div a (J.num 0) = .ok J.null := by
  cases a <;> simp [safe_div, jEq0]

theorem safe_div_NN {a b : J} (ha : NN a) (hb : NN b) :
    ∃ v, safe_div a b = .ok v ∧ NN v := by
  rcases ha with rfl | ⟨x, rfl⟩
  · exact ⟨J.null, safe_div_null_left _, Or.inl rfl⟩
  · rcases hb with rfl | ⟨y, rfl⟩
    · exact ⟨J.null, safe_div_null_right _, Or.inl rfl⟩
    · by_cases hy : y = 0
      · subst hy; exact ⟨J.null, safe_div_num_zero _, Or.inl rfl⟩
      · exact ⟨J.num (x / y), by simp [safe_div, jEq0, hy], Or.inr ⟨_, rfl⟩⟩

theorem safe_sub_NN {a b : J} (ha : NN a) (hb : NN b) :
    ∃ v, safe_sub a b = .ok v ∧ NN v := by
  rcases ha with rfl | ⟨x, rfl⟩
  · exact ⟨J.null, safe_sub_null_left _, Or.inl rfl⟩
  · rcases hb with rfl | ⟨y, rfl⟩
    · exact ⟨J.null, safe_sub_null_right _, Or.inl rfl⟩
    · exact ⟨J.num (x - y), rfl, Or.inr ⟨_, rfl⟩⟩

theorem sumNums_NN {vs : List J} (h : ∀ v ∈ vs, ∃ q : ℚ, v = J.num q) :
    ∃ s, sumNums vs = .ok s := by
  induction vs with
  | nil => exact ⟨0, rfl⟩
  | cons v rest ih =>
    obtain ⟨q, rfl⟩ := h v (by simp)
    obtain ⟨s, hs⟩ := ih (fun w hw => h w (by simp [hw]))
    exact ⟨q + s, by simp [sumNums, hs, ok_bind]⟩

theorem filter_NN {vs : List J} (h : ∀ v ∈ vs, NN v) :
    ∀ v ∈ vs.filter jIsNotNone, ∃ q : ℚ, v = J.num q := by
  intro v hv
  rw [List.mem_filter] at hv
  rcases h v hv.1 with rfl | hq
  · exact absurd hv.2 (by simp [jIsNotNone])
  · exact hq

theorem safe_add_NN {vs : List J} (h : ∀ v ∈ vs, NN v) :
    ∃ v, safe_add vs = .ok v ∧ NN v := by
  unfold safe_add
  cases hf : vs.filter jIsNotNone with
  | nil => exact ⟨J.null, rfl, Or.inl rfl⟩
  | cons w ws =>
    obtain ⟨s, hs⟩ := sumNums_NN (hf ▸ filter_NN h)
    exact ⟨J.num s, by simp [hs, ok_bind], Or.inr ⟨_, rfl⟩⟩

theorem avg_null_left (b : J) : avg J.null b = .ok b := by
  cases b <;> rfl

theorem avg_NN {a b : J} (ha : NN a) (hb : NN b) :
    ∃ v, avg a b = .ok v ∧ NN v := by
  rcases ha with rfl | ⟨x, rfl⟩
  · exact ⟨b, avg_null_left _, hb⟩
  · rcases hb with rfl | ⟨y, rfl⟩
    · exact ⟨J.num x, rfl, Or.inr ⟨_, rfl⟩⟩
    · exact ⟨J.num ((x + y) / 2), rfl, Or.inr ⟨_, rfl⟩⟩

theorem pct_NN {a : J} (ha : NN a) : ∃ v, pct a = .ok v ∧ NN v := by
  rcases ha with rfl | ⟨x, rfl⟩
  · exact ⟨J.null, rfl, Or.inl rfl⟩
  · exact ⟨J.num (round2 (x * 100)), rfl, Or.inr ⟨_, rfl⟩⟩

theorem round_val_NN {a : J} (ha : NN a) : ∃ v, round_val a = .ok v ∧ NN v := by
  rcases ha with rfl | ⟨x, rfl⟩
  · exact ⟨J.null, rfl, Or.inl rfl⟩
  · exact ⟨J.num (round2 x), rfl, Or.inr ⟨_, rfl⟩⟩

theorem absIfTruthy_NN {a : J} (ha : NN a) :
    ∃ v, absIfTruthy a = .ok v ∧ NN v := by
  rcases ha with rfl | ⟨x, rfl⟩
  · exact ⟨J.null, rfl, Or.inl rfl⟩
  · by_cases hx : x = 0
    · exact ⟨J.null, by simp [absIfTruthy, hx], Or.inl rfl⟩
    · exact ⟨J.num |x|, by simp [absIfTruthy, hx], Or.inr ⟨_, rfl⟩⟩

theorem pctDiv_NN {a b : J} (ha : NN a) (hb : NN b) :
    ∃ v, pctDiv a b = .ok v ∧ NN v := by
  obtain ⟨d, hd, hdNN⟩ := safe_div_NN ha hb
  obtain ⟨v, hv, hvNN⟩ := pct_NN hdNN
  exact ⟨v, by rw [pctDiv, hd, ok_bind, hv], hvNN⟩

theorem growthEntry_NN {a b : J} (ha : NN a) (hb : NN b) :
    ∃ v, growthEntry a b = .ok v ∧ NN v := by
  obtain ⟨d, hd, hdNN⟩ := safe_sub_NN ha hb
  obtain ⟨e, he, heNN⟩ := absIfTruthy_NN hb
  obtain ⟨r, hr, hrNN⟩ := safe_div_NN hdNN heNN
  obtain ⟨v, hv, hvNN⟩ := pct_NN hrNN
  exact ⟨v, by rw [growthEntry, hd, ok_bind, he, ok_bind, hr, ok_bind, hv], hvNN⟩

theorem turnoverDays_NN {a b : J} (ha : NN a) (hb : NN b) :
    ∃ v, turnoverDays a b = .ok v ∧ NN v := by
  obtain ⟨d, hd, hdNN⟩ := safe_div_NN ha hb
  rcases hdNN with rfl | ⟨q, rfl⟩
  · exact ⟨J.null, by rw [turnoverDays, hd, ok_bind]; rfl, Or.inl rfl⟩
  · exact ⟨J.num (round2 (q * 365)),
      by rw [turnoverDays, hd, ok_bind]; rfl, Or.inr ⟨_, rfl⟩⟩

/-- Shape of an `ok` result of `pct`. -/
theorem pct_shape {a v : J} (h : pct a = .ok v) :
    v = J.null ∨ ∃ r : ℚ, v = J.num (round2 (r * 100)) := by
  cases a <;> simp [pct] at h
  · exact Or.inl h.symm
  · exact Or.inr ⟨_, h.symm⟩

/-- Shape of an `ok` result of `pctDiv`. -/
theorem pctDiv_shape {a b v : J} (h : pctDiv a b = .ok v) :
    v = J.null ∨ ∃ r : ℚ, v = J.num (round2 (r * 100)) := by
  obtain ⟨d, _, h2⟩ := bind_eq_ok h
  exact pct_shape h2

/-- Shape of an `ok` result of `round_val`. -/
theorem round_val_shape {a v : J} (h : round_val a = .ok v) :
    v = J.null ∨ ∃ r : ℚ, v = J.num (round2 r) := by
  cases a <;> simp [round_val] at h
  · exact Or.inl h.symm
  · exact Or.inr ⟨_, h.symm⟩

/-- Shape of an `ok` result of `turnoverDays`. -/
theorem turnoverDays_shape {a b v : J} (h : turnoverDays a b = .ok v) :
    v = J.null ∨ ∃ r : ℚ, v = J.num (round2 r) := by
  obtain ⟨d, _, h2⟩ := bind_eq_ok h
  cases d <;> simp [mul365Round] at h2
  · exact Or.inl h2.symm
  · exact round_val_shape h2

theorem calc_growth_null (pl_curr : J) :
    calc_growth pl_curr J.null = .ok J.null := rfl

theorem calc_growth_nonnull {pl_curr pl_prev : J} (h : pl_prev ≠ J.null) :
    calc_growth pl_curr pl_prev = calc_growth_body pl_curr pl_prev := by
  cases pl_prev
  · exact absurd rfl h
  all_goals rfl

/-- Inversion of a successful `calc_profitability` run. -/
theorem calc_profitability_inv {pl p : J} (h : calc_profitability pl = .ok p) :
    ∃ revenue cogs gross sga op_income ord_income net_income dep
      v1 v2 v3 v4 v5 v6 v7,
      acc_revenue pl = .ok revenue ∧ acc_cogs pl = .ok cogs ∧
      acc_gross_profit pl = .ok gross ∧ acc_sga pl = .ok sga ∧
      dget pl "営業利益" = .ok op_income ∧ dget pl "経常利益" = .ok ord_income ∧
      dget pl "当期純利益" = .ok net_income ∧
      acc_sga_detail pl "販売費及び一般管理費_減価償却費" = .ok dep ∧
      pctDiv gross revenue = .ok v1 ∧ pctDiv cogs revenue = .ok v2 ∧
      pctDiv sga revenue = .ok v3 ∧ pctDiv op_income revenue = .ok v4 ∧
      pctDiv ord_income revenue = .ok v5 ∧ pctDiv net_income revenue = .ok v6 ∧
      safe_add [op_income, dep] = .ok v7 ∧
      p = J.obj [("売上総利益率", v1), ("原価率", v2), ("販管費率", v3),
        ("営業利益率", v4), ("経常利益率", v5), ("純利益率", v6), ("EBITDA", v7)] := by
  unfold calc_profitability at h
  obtain ⟨revenue, e1, h⟩ := bind_eq_ok h
  obtain ⟨cogs, e2, h⟩ := bind_eq_ok h
  obtain ⟨gross, e3, h⟩ := bind_eq_ok h
  obtain ⟨sga, e4, h⟩ := bind_eq_ok h
  obtain ⟨op_income, e5, h⟩ := bind_eq_ok h
  obtain ⟨ord_income, e6, h⟩ := bind_eq_ok h
  obtain ⟨net_income, e7, h⟩ := bind_eq_ok h
  obtain ⟨dep, e8, h⟩ := bind_eq_ok h
  obtain ⟨v1, f1, h⟩ := bind_eq_ok h
  obtain ⟨v2, f2, h⟩ := bind_eq_ok h
  obtain ⟨v3, f3, h⟩ := bind_eq_ok h
  obtain ⟨v4, f4, h⟩ := bind_eq_ok h
  obtain ⟨v5, f5, h⟩ := bind_eq_ok h
  obtain ⟨v6, f6, h⟩ := bind_eq_ok h
  obtain ⟨v7, f7, h⟩ := bind_eq_ok h
  exact ⟨revenue, cogs, gross, sga, op_income, ord_income, net_income, dep,
    v1, v2, v3, v4, v5, v6, v7, e1, e2, e3, e4, e5, e6, e7, e8,
    f1, f2, f3, f4, f5, f6, f7, (Except.ok.inj h).symm⟩

/-- Inversion of a successful `calc_growth_body` run. -/
theorem calc_growth_body_inv {pl_curr pp g : J}
    (h : calc_growth_body pl_curr pp = .ok g) :
    ∃ c1 p1 c2 p2 c3 p3 c4 p4 g1 g2 g3 g4,
      acc_revenue pl_curr = .ok c1 ∧ acc_revenue pp = .ok p1 ∧
      dget pl_curr "営業利益" = .ok c2 ∧ dget pp "営業利益" = .ok p2 ∧
      dget pl_curr "経常利益" = .ok c3 ∧ dget pp "経常利益" = .ok p3 ∧
      dget pl_curr "当期純利益" = .ok c4 ∧ dget pp "当期純利益" = .ok p4 ∧
      growthEntry c1 p1 = .ok g1 ∧ growthEntry c2 p2 = .ok g2 ∧
      growthEntry c3 p3 = .ok g3 ∧ growthEntry c4 p4 = .ok g4 ∧
      g = J.obj [("売上高成長率", g1), ("営業利益成長率", g2),
        ("経常利益成長率", g3), ("当期純利益成長率", g4)] := by
  unfold calc_growth_body at h
  obtain ⟨c1, e1, h⟩ := bind_eq_ok h
  obtain ⟨p1, e2, h⟩ := bind_eq_ok h
  obtain ⟨c2, e3, h⟩ := bind_eq_ok h
  obtain ⟨p2, e4, h⟩ := bind_eq_ok h
  obtain ⟨c3, e5, h⟩ := bind_eq_ok h
  obtain ⟨p3, e6, h⟩ := bind_eq_ok h
  obtain ⟨c4, e7, h⟩ := bind_eq_ok h
  obtain ⟨p4, e8, h⟩ := bind_eq_ok h
  obtain ⟨g1, f1, h⟩ := bind_eq_ok h
  obtain ⟨g2, f2, h⟩ := bind_eq_ok h
  obtain ⟨g3, f3, h⟩ := bind_eq_ok h
  obtain ⟨g4, f4, h⟩ := bind_eq_ok h
  exact ⟨c1, p1, c2, p2, c3, p3, c4, p4, g1, g2, g3, g4,
    e1, e2, e3, e4, e5, e6, e7, e8, f1, f2, f3, f4, (Except.ok.inj h).symm⟩

/-- Inversion of a successful `calc_cost_structure` run. -/
theorem calc_cost_structure_inv {pl p : J} (h : calc_cost_structure pl = .ok p) :
    ∃ revenue gross personnel dep v1 v2 v3,
      acc_revenue pl = .ok revenue ∧ acc_gross_profit pl = .ok gross ∧
      acc_sga_detail pl "販売費及び一般管理費_人件費" = .ok personnel ∧
      acc_sga_detail pl "販売費及び一般管理費_減価償却費" = .ok dep ∧
      pctDiv personnel revenue = .ok v1 ∧ pctDiv dep revenue = .ok v2 ∧
      safe_sub gross personnel = .ok v3 ∧
      p = J.obj [("人件費率", v1), ("減価償却費率", v2),
        ("付加価値額（売上総利益−人件費）", v3)] := by
  unfold calc_cost_structure at h
  obtain ⟨revenue, e1, h⟩ := bind_eq_ok h
  obtain ⟨gross, e2, h⟩ := bind_eq_ok h
  obtain ⟨personnel, e3, h⟩ := bind_eq_ok h
  obtain ⟨dep, e4, h⟩ := bind_eq_ok h
  obtain ⟨v1, f1, h⟩ := bind_eq_ok h
  obtain ⟨v2, f2, h⟩ := bind_eq_ok h
  obtain ⟨v3, f3, h⟩ := bind_eq_ok h
  exact ⟨revenue, gross, personnel, dep, v1, v2, v3,
    e1, e2, e3, e4, f1, f2, f3, (Except.ok.inj h).symm⟩

/-- Inversion of a successful `calc_efficiency` run. -/
theorem calc_efficiency_inv {pl bs_curr bs_prev p : J}
    (h : calc_efficiency pl bs_curr bs_prev = .ok p) :
    ∃ revenue net_income taCurr taPrev avg_ta eqCurr eqPrev avg_eq d1 v1 v2 v3,
      acc_revenue pl = .ok revenue ∧ dget pl "当期純利益" = .ok net_income ∧
      acc_total_assets bs_curr = .ok taCurr ∧
      ifTruthy bs_prev (acc_total_assets bs_prev) = .ok taPrev ∧
      avg taCurr taPrev = .ok avg_ta ∧
      acc_net_assets bs_curr = .ok eqCurr ∧
      ifTruthy bs_prev (acc_net_assets bs_prev) = .ok eqPrev ∧
      avg eqCurr eqPrev = .ok avg_eq ∧
      safe_div revenue avg_ta = .ok d1 ∧ round_val d1 = .ok v1 ∧
      pctDiv net_income avg_ta = .ok v2 ∧ pctDiv net_income avg_eq = .ok v3 ∧
      p = J.obj [("総資産回転率", v1), ("ROA", v2), ("ROE", v3)] := by
  unfold calc_efficiency at h
  obtain ⟨revenue, e1, h⟩ := bind_eq_ok h
  obtain ⟨net_income, e2, h⟩ := bind_eq_ok h
  obtain ⟨taCurr, e3, h⟩ := bind_eq_ok h
  obtain ⟨taPrev, e4, h⟩ := bind_eq_ok h
  obtain ⟨avg_ta, e5, h⟩ := bind_eq_ok h
  obtain ⟨eqCurr, e6, h⟩ := bind_eq_ok h
  obtain ⟨eqPrev, e7, h⟩ := bind_eq_ok h
  obtain ⟨avg_eq, e8, h⟩ := bind_eq_ok h
  obtain ⟨d1, f0, h⟩ := bind_eq_ok h
  obtain ⟨v1, f1, h⟩ := bind_eq_ok h
  obtain ⟨v2, f2, h⟩ := bind_eq_ok h
  obtain ⟨v3, f3, h⟩ := bind_eq_ok h
  exact ⟨revenue, net_income, taCurr, taPrev, avg_ta, eqCurr, eqPrev, avg_eq,
    d1, v1, v2, v3, e1, e2, e3, e4, e5, e6, e7, e8, f0, f1, f2, f3,
    (Except.ok.inj h).symm⟩

/-- Inversion of a successful `calc_safety` run. -/
theorem calc_safety_inv {bs p : J} (h : calc_safety bs = .ok p) :
    ∃ ca cl ta eq cash ar constructionAr quick_assets short_debt short_lt_debt
      long_debt interest_bearing d4 v1 v2 v3 v4,
      acc_current_assets bs = .ok ca ∧ acc_current_liab bs = .ok cl ∧
      acc_total_assets bs = .ok ta ∧ acc_net_assets bs = .ok eq ∧
      acc_current_assets_detail bs "流動資産_現金及び預金" = .ok cash ∧
      acc_current_assets_detail bs "流動資産_受取手形及び売掛金" = .ok ar ∧
      acc_current_assets_detail bs "流動資産_完成工事未収入金" = .ok constructionAr ∧
      safe_add [cash, ar, constructionAr] = .ok quick_assets ∧
      acc_current_liab_detail bs "流動負債_短期借入金" = .ok short_debt ∧
      acc_current_liab_detail bs "流動負債_1年内返済予定長期借入金" = .ok short_lt_debt ∧
      acc_fixed_liab_detail bs "固定負債_長期借入金" = .ok long_debt ∧
      safe_add [short_debt, short_lt_debt, long_debt] = .ok interest_bearing ∧
      pctDiv ca cl = .ok v1 ∧ pctDiv quick_assets cl = .ok v2 ∧
      pctDiv eq ta = .ok v3 ∧
      safe_div interest_bearing eq = .ok d4 ∧ round_val d4 = .ok v4 ∧
      p = J.obj [("流動比率", v1), ("当座比率", v2), ("自己資本比率", v3),
        ("D/Eレシオ", v4)] := by
  unfold calc_safety at h
  obtain ⟨ca, e1, h⟩ := bind_eq_ok h
  obtain ⟨cl, e2, h⟩ := bind_eq_ok h
  obtain ⟨ta, e3, h⟩ := bind_eq_ok h
  obtain ⟨eq, e4, h⟩ := bind_eq_ok h
  obtain ⟨cash, e5, h⟩ := bind_eq_ok h
  obtain ⟨ar, e6, h⟩ := bind_eq_ok h
  obtain ⟨constructionAr, e7, h⟩ := bind_eq_ok h
  obtain ⟨quick_assets, e8, h⟩ := bind_eq_ok h
  obtain ⟨short_debt, e9, h⟩ := bind_eq_ok h
  obtain ⟨short_lt_debt, e10, h⟩ := bind_eq_ok h
  obtain ⟨long_debt, e11, h⟩ := bind_eq_ok h
  obtain ⟨interest_bearing, e12, h⟩ := bind_eq_ok h
  obtain ⟨v1, f1, h⟩ := bind_eq_ok h
  obtain ⟨v2, f2, h⟩ := bind_eq_ok h
  obtain ⟨v3, f3, h⟩ := bind_eq_ok h
  obtain ⟨d4, f4, h⟩ := bind_eq_ok h
  obtain ⟨v4, f5, h⟩ := bind_eq_ok h
  exact ⟨ca, cl, ta, eq, cash, ar, constructionAr, quick_assets, short_debt,
    short_lt_debt, long_debt, interest_bearing, d4, v1, v2, v3, v4,
    e1, e2, e3, e4, e5, e6, e7, e8, e9, e10, e11, e12,
    f1, f2, f3, f4, f5, (Except.ok.inj h).symm⟩

/-- Inversion of a successful `calc_cashflow` run. -/
theorem calc_cashflow_inv {pl cf cf_prev p : J}
    (h : calc_cashflow pl cf cf_prev = .ok p) :
    ∃ revenue op_income dep ebitda op_cf inv_cf end_cash begin_cash d3 v1 v2 v3 v4,
      acc_revenue pl = .ok revenue ∧ dget pl "営業利益" = .ok op_income ∧
      acc_sga_detail pl "販売費及び一般管理費_減価償却費" = .ok dep ∧
      safe_add [op_income, dep] = .ok ebitda ∧
      dget cf "営業活動によるキャッシュ・フロー" = .ok op_cf ∧
      dget cf "投資活動によるキャッシュ・フロー" = .ok inv_cf ∧
      dget cf "現金及び現金同等物期末残高" = .ok end_cash ∧
      ifTruthy cf_prev (dget cf_prev "現金及び現金同等物期末残高") = .ok begin_cash ∧
      pctDiv op_cf revenue = .ok v1 ∧ safe_add [op_cf, inv_cf] = .ok v2 ∧
      safe_div op_cf ebitda = .ok d3 ∧ round_val d3 = .ok v3 ∧
      safe_sub end_cash begin_cash = .ok v4 ∧
      p = J.obj [("営業CFマージン", v1), ("フリーキャッシュフロー", v2),
        ("営業CF÷EBITDA", v3), ("現金増減額", v4)] := by
  unfold calc_cashflow at h
  obtain ⟨revenue, e1, h⟩ := bind_eq_ok h
  obtain ⟨op_income, e2, h⟩ := bind_eq_ok h
  obtain ⟨dep, e3, h⟩ := bind_eq_ok h
  obtain ⟨ebitda, e4, h⟩ := bind_eq_ok h
  obtain ⟨op_cf, e5, h⟩ := bind_eq_ok h
  obtain ⟨inv_cf, e6, h⟩ := bind_eq_ok h
  obtain ⟨end_cash, e7, h⟩ := bind_eq_ok h
  obtain ⟨begin_cash, e8, h⟩ := bind_eq_ok h
  obtain ⟨v1, f1, h⟩ := bind_eq_ok h
  obtain ⟨v2, f2, h⟩ := bind_eq_ok h
  obtain ⟨d3, f3, h⟩ := bind_eq_ok h
  obtain ⟨v3, f4, h⟩ := bind_eq_ok h
  obtain ⟨v4, f5, h⟩ := bind_eq_ok h
  exact ⟨revenue, op_income, dep, ebitda, op_cf, inv_cf, end_cash, begin_cash,
    d3, v1, v2, v3, v4, e1, e2, e3, e4, e5, e6, e7, e8,
    f1, f2, f3, f4, f5, (Except.ok.inj h).symm⟩

/-- Inversion of a successful `calc_construction` run. -/
theorem calc_construction_inv {pl bs_curr bs_prev p : J}
    (h : calc_construction pl bs_curr bs_prev = .ok p) :
    ∃ constr_ar wip constr_ap adv_received s1 s2 construction_wc ca cash cl
      short_debt n1 n2 net_wc revenue arc1 arc2 ar_curr ar_prev avg_ar ar_days
      cogs ap_curr ap_prev avg_ap ap_days,
      acc_current_assets_detail bs_curr "流動資産_完成工事未収入金" = .ok constr_ar ∧
      acc_current_assets_detail bs_curr "流動資産_未成工事支出金" = .ok wip ∧
      acc_current_liab_detail bs_curr "流動負債_工事未払金" = .ok constr_ap ∧
      acc_current_liab_detail bs_curr "流動負債_未成工事受入金" = .ok adv_received ∧
      safe_add [constr_ar, wip] = .ok s1 ∧
      safe_add [constr_ap, adv_received] = .ok s2 ∧
      safe_sub s1 s2 = .ok construction_wc ∧
      acc_current_assets bs_curr = .ok ca ∧
      acc_current_assets_detail bs_curr "流動資産_現金及び預金" = .ok cash ∧
      acc_current_liab bs_curr = .ok cl ∧
      acc_current_liab_detail bs_curr "流動負債_短期借入金" = .ok short_debt ∧
      safe_sub ca cash = .ok n1 ∧ safe_sub cl short_debt = .ok n2 ∧
      safe_sub n1 n2 = .ok net_wc ∧
      acc_revenue pl = .ok revenue ∧
      acc_current_assets_detail bs_curr "流動資産_受取手形及び売掛金" = .ok arc1 ∧
      acc_current_assets_detail bs_curr "流動資産_完成工事未収入金" = .ok arc2 ∧
      safe_add [arc1, arc2] = .ok ar_curr ∧
      ifTruthy bs_prev (do
        let a1 ← acc_current_assets_detail bs_prev "流動資産_受取手形及び売掛金"
        let a2 ← acc_current_assets_detail bs_prev "流動資産_完成工事未収入金"
        safe_add [a1, a2]) = .ok ar_prev ∧
      avg ar_curr ar_prev = .ok avg_ar ∧
      turnoverDays avg_ar revenue = .ok ar_days ∧
      acc_cogs pl = .ok cogs ∧
      acc_current_liab_detail bs_curr "流動負債_工事未払金" = .ok ap_curr ∧
      ifTruthy bs_prev (acc_current_liab_detail bs_prev "流動負債_工事未払金") =
        .ok ap_prev ∧
      avg ap_curr ap_prev = .ok avg_ap ∧
      turnoverDays avg_ap cogs = .ok ap_days ∧
      p = J.obj [("工事運転資本", construction_wc), ("ネット運転資本（簡易）", net_wc),
        ("売上債権回転期間（日）", ar_days), ("仕入債務回転期間（日）", ap_days)] := by
  unfold calc_construction at h
  obtain ⟨constr_ar, e1, h⟩ := bind_eq_ok h
  obtain ⟨wip, e2, h⟩ := bind_eq_ok h
  obtain ⟨constr_ap, e3, h⟩ := bind_eq_ok h
  obtain ⟨adv_received, e4, h⟩ := bind_eq_ok h
  obtain ⟨s1, e5, h⟩ := bind_eq_ok h
  obtain ⟨s2, e6, h⟩ := bind_eq_ok h
  obtain ⟨construction_wc, e7, h⟩ := bind_eq_ok h
  obtain ⟨ca, e8, h⟩ := bind_eq_ok h
  obtain ⟨cash, e9, h⟩ := bind_eq_ok h
  obtain ⟨cl, e10, h⟩ := bind_eq_ok h
  obtain ⟨short_debt, e11, h⟩ := bind_eq_ok h
  obtain ⟨n1, e12, h⟩ := bind_eq_ok h
  obtain ⟨n2, e13, h⟩ := bind_eq_ok h
  obtain ⟨net_wc, e14, h⟩ := bind_eq_ok h
  obtain ⟨revenue, e15, h⟩ := bind_eq_ok h
  obtain ⟨arc1, e16, h⟩ := bind_eq_ok h
  obtain ⟨arc2, e17, h⟩ := bind_eq_ok h
  obtain ⟨ar_curr, e18, h⟩ := bind_eq_ok h
  obtain ⟨ar_prev, e19, h⟩ := bind_eq_ok h
  obtain ⟨avg_ar, e20, h⟩ := bind_eq_ok h
  obtain ⟨ar_days, e21, h⟩ := bind_eq_ok h
  obtain ⟨cogs, e22, h⟩ := bind_eq_ok h
  obtain ⟨ap_curr, e23, h⟩ := bind_eq_ok h
  obtain ⟨ap_prev, e24, h⟩ := bind_eq_ok h
  obtain ⟨avg_ap, e25, h⟩ := bind_eq_ok h
  obtain ⟨ap_days, e26, h⟩ := bind_eq_ok h
  exact ⟨constr_ar, wip, constr_ap, adv_received, s1, s2, construction_wc,
    ca, cash, cl, short_debt, n1, n2, net_wc, revenue, arc1, arc2, ar_curr,
    ar_prev, avg_ar, ar_days, cogs, ap_curr, ap_prev, avg_ap, ap_days,
    e1, e2, e3, e4, e5, e6, e7, e8, e9, e10, e11, e12, e13, e14, e15, e16,
    e17, e18, e19, e20, e21, e22, e23, e24, e25, e26, (Except.ok.inj h).symm⟩

/-- Inversion of a successful `yearPanel` run. -/
theorem yearPanel_inv {prev_data year_data panel : J}
    (h : yearPanel prev_data year_data = .ok panel) :
    ∃ year pl bs cf pl_prev bs_prev cf_prev prof growth cost eff safety cfi constr,
      dget year_data "YEAR" = .ok year ∧
      get_pl year_data = .ok pl ∧ get_bs year_data = .ok bs ∧
      get_cf year_data = .ok cf ∧
      ifTruthy prev_data (get_pl prev_data) = .ok pl_prev ∧
      ifTruthy prev_data (get_bs prev_data) = .ok bs_prev ∧
      ifTruthy prev_data (get_cf prev_data) = .ok cf_prev ∧
      calc_profitability pl = .ok prof ∧
      calc_growth pl pl_prev = .ok growth ∧
      calc_cost_structure pl = .ok cost ∧
      calc_efficiency pl bs bs_prev = .ok eff ∧
      calc_safety bs = .ok safety ∧
      calc_cashflow pl cf cf_prev = .ok cfi ∧
      calc_construction pl bs bs_prev = .ok constr ∧
      panel = J.obj [("YEAR", year), ("収益性指標", prof), ("成長性指標", growth),
        ("コスト構造・固定費分析", cost), ("効率性指標", eff),
        ("安全性・財務健全性", safety), ("キャッシュフロー関連指標", cfi),
        ("建設業特有指標", constr)] := by
  unfold yearPanel at h
  obtain ⟨year, e1, h⟩ := bind_eq_ok h
  obtain ⟨pl, e2, h⟩ := bind_eq_ok h
  obtain ⟨bs, e3, h⟩ := bind_eq_ok h
  obtain ⟨cf, e4, h⟩ := bind_eq_ok h
  obtain ⟨pl_prev, e5, h⟩ := bind_eq_ok h
  obtain ⟨bs_prev, e6, h⟩ := bind_eq_ok h
  obtain ⟨cf_prev, e7, h⟩ := bind_eq_ok h
  obtain ⟨prof, f1, h⟩ := bind_eq_ok h
  obtain ⟨growth, f2, h⟩ := bind_eq_ok h
  obtain ⟨cost, f3, h⟩ := bind_eq_ok h
  obtain ⟨eff, f4, h⟩ := bind_eq_ok h
  obtain ⟨safety, f5, h⟩ := bind_eq_ok h
  obtain ⟨cfi, f6, h⟩ := bind_eq_ok h
  obtain ⟨constr, f7, h⟩ := bind_eq_ok h
  exact ⟨year, pl, bs, cf, pl_prev, bs_prev, cf_prev, prof, growth, cost,
    eff, safety, cfi, constr, e1, e2, e3, e4, e5, e6, e7,
    f1, f2, f3, f4, f5, f6, f7, (Except.ok.inj h).symm⟩

/-- Inversion of a successful `processYears` run on a non-empty list. -/
theorem processYears_cons_inv {prev yd : J} {rest out : List J}
    (h : processYears prev (yd :: rest) = .ok out) :
    ∃ panel more, yearPanel prev yd = .ok panel ∧
      processYears yd rest = .ok more ∧ out = panel :: more := by
  unfold processYears at h
  obtain ⟨panel, e1, h⟩ := bind_eq_ok h
  obtain ⟨more, e2, h⟩ := bind_eq_ok h
  exact ⟨panel, more, e1, e2, (Except.ok.inj h).symm⟩

/-- A successful `processYears` run yields one panel per input year. -/
theorem processYears_length {ys : List J} :
    ∀ {prev : J} {out : List J}, processYears prev ys = .ok out →
      out.length = ys.length := by
  induction ys with
  | nil =>
    intro prev out h
    rw [show processYears prev [] = .ok [] from rfl] at h
    rw [(Except.ok.inj h).symm]
  | cons yd rest ih =>
    intro prev out h
    obtain ⟨panel, more, _, h2, rfl⟩ := processYears_cons_inv h
    simp [ih h2]

/-- Inversion of a successful `calculate_indices` run. -/
theorem calculate_indices_inv {cd r : J} (h : calculate_indices cd = .ok r) :
    ∃ fin_years years panels info,
      dgetD cd "財務データ" (J.arr []) = .ok fin_years ∧
      iterYears fin_years = .ok years ∧
      processYears J.null years = .ok panels ∧
      dgetD cd "企業情報" (J.obj []) = .ok info ∧
      r = J.obj [("企業情報", info), ("指標", J.arr panels)] := by
  unfold calculate_indices at h
  obtain ⟨fin_years, e1, h⟩ := bind_eq_ok h
  obtain ⟨years, e2, h⟩ := bind_eq_ok h
  obtain ⟨panels, e3, h⟩ := bind_eq_ok h
  obtain ⟨info, e4, h⟩ := bind_eq_ok h
  exact ⟨fin_years, years, panels, info, e1, e2, e3, e4, (Except.ok.inj h).symm⟩

theorem ifTruthy_null (e : Except Unit J) : ifTruthy J.null e = .ok J.null := rfl

theorem ifTruthy_false {g : J} (h : jTruthy g = false) (e : Except Unit J) :
    ifTruthy g e = .ok J.null := by simp [ifTruthy, h]

/-- The `sumNums` on an all-numeric list is the plain sum. -/
theorem sumNums_eq {ls : List J} (h : ∀ v ∈ ls, ∃ q : ℚ, v = J.num q) :
    sumNums ls = .ok ((ls.filterMap toQ).sum) := by
  induction ls with
  | nil => rfl
  | cons v rest ih =>
    obtain ⟨q, rfl⟩ := h v (by simp)
    rw [show sumNums (J.num q :: rest) =
      (sumNums rest >>= fun s => .ok (q + s)) from rfl,
      ih (fun w hw => h w (by simp [hw]))]
    simp [toQ, ok_bind]

/-- Dropping the `None`s does not change the numeric content of an
all-`NN` list. -/
theorem filterMap_toQ_filter {vs : List J} (h : ∀ v ∈ vs, NN v) :
    (vs.filter jIsNotNone).filterMap toQ = vs.filterMap toQ := by
  induction vs with
  | nil => rfl
  | cons v rest ih =>
    have hrest := ih (fun w hw => h w (by simp [hw]))
    rcases h v (by simp) with rfl | ⟨q, rfl⟩
    · simp [List.filter, jIsNotNone, toQ, hrest]
    · simp [List.filter, jIsNotNone, toQ, hrest]

/-- The `_safe_add` on an all-absent list is absent. -/
theorem safe_add_all_null {vs : List J} (h : ∀ v ∈ vs, v = J.null) :
    safe_add vs = .ok J.null := by
  have hf : vs.filter jIsNotNone = [] := by
    rw [List.filter_eq_nil_iff]
    intro v hv
    rw [h v hv]
    simp [jIsNotNone]
  unfold safe_add
  rw [hf]

/-- The `_safe_add` on numbers-and-absences with at least one number is the
sum of the numbers. -/
theorem safe_add_present_sum {vs : List J} (h : ∀ v ∈ vs, NN v)
    (hne : ∃ v ∈ vs, v ≠ J.null) :
    safe_add vs = .ok (J.num ((vs.filterMap toQ).sum)) := by
  obtain ⟨w, hw, hwne⟩ := hne
  have hwmem : w ∈ vs.filter jIsNotNone := by
    rw [List.mem_filter]
    refine ⟨hw, ?_⟩
    rcases h w hw with rfl | ⟨q, rfl⟩
    · exact absurd rfl hwne
    · simp [jIsNotNone]
  cases hf : vs.filter jIsNotNone with
  | nil => rw [hf] at hwmem; exact absurd hwmem (by simp)
  | cons u us =>
    have hnum : ∀ v ∈ vs.filter jIsNotNone, ∃ q : ℚ, v = J.num q := filter_NN h
    rw [hf] at hnum
    unfold safe_add
    rw [hf]
    show (sumNums (u :: us) >>= fun s => .ok (J.num s)) = _
    rw [sumNums_eq hnum, ok_bind, ← hf, filterMap_toQ_filter h]

/-- Panel i of a successful `processYears` run carries the `YEAR` value
of input year i. -/
theorem processYears_year_at {ys : List J} :
    ∀ {prev : J} {out : List J}, processYears prev ys = .ok out →
    ∀ i : ℕ, i < ys.length →
      ∃ y panel yv, ys.get? i = some y ∧ out.get? i = some panel ∧
        dget y "YEAR" = .ok yv ∧ getField panel "YEAR" = some yv := by
  induction ys with
  | nil =>
    intro prev out h i hi
    exact absurd hi (by simp)
  | cons yd rest ih =>
    intro prev out h i hi
    obtain ⟨panel, more, hp, hrest, rfl⟩ := processYears_cons_inv h
    cases i with
    | zero =>
      obtain ⟨year, _, _, _, _, _, _, _, _, _, _, _, _, _, hyear,
        _, _, _, _, _, _, _, _, _, _, _, _, _, rfl⟩ := yearPanel_inv hp
      exact ⟨yd, _, year, rfl, rfl, hyear, by simp [getField, jLookup]⟩
    | succ i =>
      obtain ⟨y, panel2, yv, hy1, hy2, hy3, hy4⟩ :=
        ih hrest i (Nat.lt_of_succ_lt_succ hi)
      exact ⟨y, panel2, yv, hy1, hy2, hy3, hy4⟩

theorem jOrEmpty_obj (m : List (String × J)) : jOrEmpty (J.obj m) = J.obj m := by
  cases m <;> simp [jOrEmpty, jTruthy]

theorem dget_obj (m : List (String × J)) (k : String) :
    dget (J.obj m) k = .ok ((jLookup m k).getD J.null) := rfl

theorem lookup_mem {m : List (String × J)} {k : String} {v : J}
    (h : jLookup m k = some v) : (k, v) ∈ m := by
  induction m with
  | nil => exact absurd h (by simp [jLookup])
  | cons kv rest ih =>
    obtain ⟨k1, v1⟩ := kv
    rw [show jLookup ((k1, v1) :: rest) k =
      (if k1 = k then some v1 else jLookup rest k) from rfl] at h
    by_cases hk : k1 = k
    · rw [if_pos hk] at h
      have hv : v1 = v := Option.some.inj h
      subst hk; subst hv
      exact List.mem_cons_self _ _
    · rw [if_neg hk] at h
      exact List.mem_cons_of_mem _ (ih h)

theorem allNN_lookup {m : List (String × J)} (h : ∀ kv ∈ m, NN kv.2)
    (k : String) : NNopt (jLookup m k) := by
  cases hl : jLookup m k with
  | none => trivial
  | some v => exact h (k, v) (lookup_mem hl)

/-- The first-year behaviour of a single panel: when the preceding list
element is `None`, the growth category is computed as `None` itself and
the cash-balance delta is `None`. -/
theorem yearPanel_null_prev {yd panel : J} (h : yearPanel J.null yd = .ok panel) :
    getField panel "成長性指標" = some J.null ∧
    ∃ cfobj, getField panel "キャッシュフロー関連指標" = some cfobj ∧
      getField cfobj "現金増減額" = some J.null := by
  obtain ⟨year, pl, bs, cf, pl_prev, bs_prev, cf_prev, prof, growth, cost,
    eff, safety, cfi, constr, e1, e2, e3, e4, e5, e6, e7,
    f1, f2, f3, f4, f5, f6, f7, rfl⟩ := yearPanel_inv h
  rw [ifTruthy_null] at e5 e7
  have hpl : pl_prev = J.null := (Except.ok.inj e5).symm
  have hcf : cf_prev = J.null := (Except.ok.inj e7).symm
  subst hpl; subst hcf
  rw [calc_growth_null] at f2
  have hg : growth = J.null := (Except.ok.inj f2).symm
  subst hg
  obtain ⟨revenue, op_income, dep, ebitda, op_cf, inv_cf, end_cash, begin_cash,
    d3, w1, w2, w3, w4, c1, c2, c3, c4, c5, c6, c7, c8,
    g1, g2, g3, g4, g5, rfl⟩ := calc_cashflow_inv f6
  rw [ifTruthy_null] at c8
  have hb : begin_cash = J.null := (Except.ok.inj c8).symm
  subst hb
  rw [safe_sub_null_right] at g5
  have hw4 : w4 = J.null := (Except.ok.inj g5).symm
  subst hw4
  exact ⟨by simp [getField, jLookup],
    ⟨J.obj [("営業CFマージン", w1), ("フリーキャッシュフロー", w2),
      ("営業CF÷EBITDA", w3), ("現金増減額", J.null)],
     by simp [getField, jLookup], by simp [getField, jLookup]⟩⟩

/-- Every panel of a successful run comes from a `yearPanel` call. -/
theorem processYears_mem {ys : List J} :
    ∀ {prev : J} {out : List J}, processYears prev ys = .ok out →
    ∀ panel ∈ out, ∃ pv yd, yearPanel pv yd = .ok panel := by
  induction ys with
  | nil =>
    intro prev out h panel hm
    rw [show processYears prev [] = .ok [] from rfl] at h
    rw [← Except.ok.inj h] at hm
    exact absurd hm (by simp)
  | cons yd rest ih =>
    intro prev out h panel hm
    obtain ⟨p0, more, hp, hrest, rfl⟩ := processYears_cons_inv h
    rcases List.mem_cons.mp hm with rfl | hm2
    · exact ⟨prev, yd, hp⟩
    · exact ih hrest panel hm2

/-- Shape of an `ok` result of `growthEntry`. -/
theorem growthEntry_shape {a b v : J} (h : growthEntry a b = .ok v) :
    v = J.null ∨ ∃ r : ℚ, v = J.num (round2 (r * 100)) := by
  obtain ⟨d, _, h⟩ := bind_eq_ok h
  obtain ⟨e, _, h⟩ := bind_eq_ok h
  obtain ⟨q, _, h⟩ := bind_eq_ok h
  exact pct_shape h

/-- A growth category is `None` or a mapping of the four growth keys. -/
theorem calc_growth_shape {pl pp g : J} (h : calc_growth pl pp = .ok g) :
    g = J.null ∨ ∃ g1 g2 g3 g4, g = J.obj [("売上高成長率", g1),
      ("営業利益成長率", g2), ("経常利益成長率", g3), ("当期純利益成長率", g4)] := by
  by_cases hpp : pp = J.null
  · subst hpp
    rw [calc_growth_null] at h
    exact Or.inl (Except.ok.inj h).symm
  · rw [calc_growth_nonnull hpp] at h
    obtain ⟨c1, p1, c2, p2, c3, p3, c4, p4, g1, g2, g3, g4,
      _, _, _, _, _, _, _, _, _, _, _, _, rfl⟩ := calc_growth_body_inv h
    exact Or.inr ⟨g1, g2, g3, g4, rfl⟩

theorem pctShaped_of_pctDiv {a b v : J} (h : pctDiv a b = .ok v) :
    pctShaped (some v) := by
  rcases pctDiv_shape h with rfl | ⟨r, rfl⟩
  · exact Or.inl rfl
  · exact Or.inr ⟨r, rfl⟩

theorem pctShaped_of_growthEntry {a b v : J} (h : growthEntry a b = .ok v) :
    pctShaped (some v) := by
  rcases growthEntry_shape h with rfl | ⟨r, rfl⟩
  · exact Or.inl rfl
  · exact Or.inr ⟨r, rfl⟩

theorem ratioShaped_of_round_val {a v : J} (h : round_val a = .ok v) :
    ratioShaped (some v) := by
  rcases round_val_shape h with rfl | ⟨r, rfl⟩
  · exact Or.inl rfl
  · exact Or.inr ⟨r, rfl⟩

theorem ratioShaped_of_turnoverDays {a b v : J} (h : turnoverDays a b = .ok v) :
    ratioShaped (some v) := by
  rcases turnoverDays_shape h with rfl | ⟨r, rfl⟩
  · exact Or.inl rfl
  · exact Or.inr ⟨r, rfl⟩

theorem safe_add_two_nums (a b : ℚ) :
    safe_add [J.num a, J.num b] = .ok (J.num (a + b)) := by
  have hNN : ∀ v ∈ [J.num a, J.num b], NN v := by
    intro v hv
    simp only [List.mem_cons, List.not_mem_nil, or_false] at hv
    rcases hv with rfl | rfl
    · exact Or.inr ⟨a, rfl⟩
    · exact Or.inr ⟨b, rfl⟩
  rw [safe_add_present_sum hNN ⟨J.num a, by simp, by simp⟩]
  norm_num [List.filterMap_cons]

theorem NNopt_getD {o : Option J} (h : NNopt o) : NN (o.getD J.null) := by
  cases o
  · exact Or.inl rfl
  · exact h

theorem leaf_lookup_NN {m : List (String × J)} (h : ∀ kv ∈ m, NN kv.2)
    (k : String) : NN ((jLookup m k).getD J.null) := by
  cases hl : jLookup m k with
  | none => exact Or.inl rfl
  | some v => exact h (k, v) (lookup_mem hl)

/-- Generic navigation step of the accessor layer: `( … or {}).get(k)` on
a well-formed group never raises and preserves the next level's
well-formedness. -/
theorem step_wf {P : List (String × J) → Prop} {Q : J → Prop} {v : J} (k : String)
    (h : wfFalsyOr P v) (hQnull : Q J.null)
    (hP : ∀ m, P m → Q ((jLookup m k).getD J.null)) :
    ∃ w, dget (jOrEmpty v) k = .ok w ∧ Q w := by
  cases v with
  | null => exact ⟨J.null, by simp [jOrEmpty, jTruthy, dget, jLookup], hQnull⟩
  | num q =>
    have hq : q = 0 := h
    subst hq
    exact ⟨J.null, by simp [jOrEmpty, jTruthy, dget, jLookup], hQnull⟩
  | str s =>
    have hs : s = "" := h
    subst hs
    exact ⟨J.null, by simp [jOrEmpty, jTruthy, dget, jLookup], hQnull⟩
  | arr xs =>
    have hx : xs = [] := h
    subst hx
    exact ⟨J.null, by simp [jOrEmpty, jTruthy, dget, jLookup], hQnull⟩
  | obj m =>
    exact ⟨(jLookup m k).getD J.null, by rw [jOrEmpty_obj, dget_obj], hP m h⟩

theorem leaf_step {v : J} (h : wfLeafGroupV v) (k : String) :
    ∃ w, dget (jOrEmpty v) k = .ok w ∧ NN w :=
  step_wf k h (Or.inl rfl) (fun m hm => leaf_lookup_NN hm k)

theorem td_total_step {v : J} (h : wfGroupTDV v) :
    ∃ w, dget (jOrEmpty v) "合計" = .ok w ∧ NN w :=
  step_wf "合計" h (Or.inl rfl) (fun m hm => NNopt_getD hm.1)

theorem td_detail_step {v : J} (h : wfGroupTDV v) (k : String) :
    ∃ u w, dget (jOrEmpty v) "内訳" = .ok u ∧ dget (jOrEmpty u) k = .ok w ∧ NN w := by
  obtain ⟨u, hu, hleaf⟩ := step_wf "内訳" h trivial (fun m hm => hm.2)
  obtain ⟨w, hw, hNN⟩ := leaf_step hleaf k
  exact ⟨u, w, hu, hw, hNN⟩

theorem dget_NN {m : List (String × J)} {k : String} (h : NNopt (jLookup m k)) :
    ∃ v, dget (J.obj m) k = .ok v ∧ NN v :=
  ⟨_, dget_obj m k, NNopt_getD h⟩

theorem acc_revenue_total {pl : J} (h : wfPL pl) :
    ∃ v, acc_revenue pl = .ok v ∧ NN v := by
  obtain ⟨m, rfl, h1, _, _, _, _, _, _⟩ := h
  obtain ⟨v, hv, hNN⟩ := leaf_step h1 "合計"
  exact ⟨v, by unfold acc_revenue; rw [dget_obj, ok_bind, hv], hNN⟩

theorem acc_cogs_total {pl : J} (h : wfPL pl) :
    ∃ v, acc_cogs pl = .ok v ∧ NN v := by
  obtain ⟨m, rfl, _, h2, _, _, _, _, _⟩ := h
  obtain ⟨v, hv, hNN⟩ := leaf_step h2 "合計"
  exact ⟨v, by unfold acc_cogs; rw [dget_obj, ok_bind, hv], hNN⟩

theorem acc_gross_profit_total {pl : J} (h : wfPL pl) :
    ∃ v, acc_gross_profit pl = .ok v ∧ NN v := by
  obtain ⟨m, rfl, _, _, h3, _, _, _, _⟩ := h
  obtain ⟨v, hv, hNN⟩ := leaf_step h3 "合計"
  exact ⟨v, by unfold acc_gross_profit; rw [dget_obj, ok_bind, hv], hNN⟩

theorem acc_sga_total {pl : J} (h : wfPL pl) :
    ∃ v, acc_sga pl = .ok v ∧ NN v := by
  obtain ⟨m, rfl, _, _, _, h4, _, _, _⟩ := h
  obtain ⟨v, hv, hNN⟩ := td_total_step h4
  exact ⟨v, by unfold acc_sga; rw [dget_obj, ok_bind, hv], hNN⟩

theorem acc_sga_detail_total {pl : J} (h : wfPL pl) (k : String) :
    ∃ v, acc_sga_detail pl k = .ok v ∧ NN v := by
  obtain ⟨m, rfl, _, _, _, h4, _, _, _⟩ := h
  obtain ⟨u, w, hu, hw, hNN⟩ := td_detail_step h4 k
  exact ⟨w, by unfold acc_sga_detail; rw [dget_obj, ok_bind, hu, ok_bind, hw], hNN⟩

theorem acc_total_assets_total {bs : J} (h : wfBS bs) :
    ∃ v, acc_total_assets bs = .ok v ∧ NN v := by
  obtain ⟨m, rfl, h1, _⟩ := h
  obtain ⟨v, hv, hNN⟩ := step_wf "総資産" h1 (Or.inl rfl) (fun m2 hm => NNopt_getD hm.1)
  exact ⟨v, by unfold acc_total_assets; rw [dget_obj, ok_bind, hv], hNN⟩

theorem acc_current_assets_total {bs : J} (h : wfBS bs) :
    ∃ v, acc_current_assets bs = .ok v ∧ NN v := by
  obtain ⟨m, rfl, h1, _⟩ := h
  obtain ⟨ca, hca, hcaw⟩ := step_wf "流動資産" h1 trivial (fun m2 hm => hm.2)
  obtain ⟨v, hv, hNN⟩ := td_total_step hcaw
  exact ⟨v, by unfold acc_current_assets; rw [dget_obj, ok_bind, hca, ok_bind, hv], hNN⟩

theorem acc_current_assets_detail_total {bs : J} (h : wfBS bs) (k : String) :
    ∃ v, acc_current_assets_detail bs k = .ok v ∧ NN v := by
  obtain ⟨m, rfl, h1, _⟩ := h
  obtain ⟨ca, hca, hcaw⟩ := step_wf "流動資産" h1 trivial (fun m2 hm => hm.2)
  obtain ⟨u, w, hu, hw, hNN⟩ := td_detail_step hcaw k
  refine ⟨w, ?_, hNN⟩
  unfold acc_current_assets_detail
  rw [dget_obj, ok_bind, hca, ok_bind, hu, ok_bind, hw]

theorem acc_current_liab_total {bs : J} (h : wfBS bs) :
    ∃ v, acc_current_liab bs = .ok v ∧ NN v := by
  obtain ⟨m, rfl, _, h2⟩ := h
  obtain ⟨liab0, hl0, hlw⟩ := step_wf "負債" h2 trivial (fun m2 hm => hm.1)
  obtain ⟨u, hu, huw⟩ := step_wf "内訳" hlw trivial (fun m2 hm => hm)
  obtain ⟨cl, hcl, hclw⟩ := step_wf "流動負債" huw trivial (fun m2 hm => hm.1)
  obtain ⟨v, hv, hNN⟩ := td_total_step hclw
  refine ⟨v, ?_, hNN⟩
  unfold acc_current_liab
  rw [dget_obj, ok_bind, hl0, ok_bind, hu, ok_bind, hcl, ok_bind, hv]

theorem acc_current_liab_detail_total {bs : J} (h : wfBS bs) (k : String) :
    ∃ v, acc_current_liab_detail bs k = .ok v ∧ NN v := by
  obtain ⟨m, rfl, _, h2⟩ := h
  obtain ⟨liab0, hl0, hlw⟩ := step_wf "負債" h2 trivial (fun m2 hm => hm.1)
  obtain ⟨u, hu, huw⟩ := step_wf "内訳" hlw trivial (fun m2 hm => hm)
  obtain ⟨cl, hcl, hclw⟩ := step_wf "流動負債" huw trivial (fun m2 hm => hm.1)
  obtain ⟨u2, w, hu2, hw, hNN⟩ := td_detail_step hclw k
  refine ⟨w, ?_, hNN⟩
  unfold acc_current_liab_detail
  rw [dget_obj, ok_bind, hl0, ok_bind, hu, ok_bind, hcl, ok_bind, hu2,
    ok_bind, hw]

theorem acc_fixed_liab_detail_total {bs : J} (h : wfBS bs) (k : String) :
    ∃ v, acc_fixed_liab_detail bs k = .ok v ∧ NN v := by
  obtain ⟨m, rfl, _, h2⟩ := h
  obtain ⟨liab0, hl0, hlw⟩ := step_wf "負債" h2 trivial (fun m2 hm => hm.1)
  obtain ⟨u, hu, huw⟩ := step_wf "内訳" hlw trivial (fun m2 hm => hm)
  obtain ⟨fl, hfl, hflw⟩ := step_wf "固定負債" huw trivial (fun m2 hm => hm.2)
  obtain ⟨u2, hu2, hu2w⟩ := step_wf "内訳" hflw trivial (fun m2 hm => hm)
  obtain ⟨w, hw, hNN⟩ := leaf_step hu2w k
  refine ⟨w, ?_, hNN⟩
  unfold acc_fixed_liab_detail
  rw [dget_obj, ok_bind, hl0, ok_bind, hu, ok_bind, hfl, ok_bind, hu2,
    ok_bind, hw]

theorem acc_net_assets_total {bs : J} (h : wfBS bs) :
    ∃ v, acc_net_assets bs = .ok v ∧ NN v := by
  obtain ⟨m, rfl, _, h2⟩ := h
  obtain ⟨eq0, he0, hew⟩ := step_wf "純資産" h2 trivial (fun m2 hm => hm.2)
  obtain ⟨v, hv, hNN⟩ := step_wf "合計" hew (Or.inl rfl) (fun m2 hm => NNopt_getD hm)
  exact ⟨v, by unfold acc_net_assets; rw [dget_obj, ok_bind, he0, ok_bind, hv], hNN⟩

theorem wfPL_empty : wfPL (J.obj []) :=
  ⟨[], rfl, trivial, trivial, trivial, trivial, trivial, trivial, trivial⟩

theorem wfBS_empty : wfBS (J.obj []) := ⟨[], rfl, trivial, trivial⟩

theorem wfCF_empty : wfCF (J.obj []) := ⟨[], rfl, by simp⟩

theorem get_pl_total {yd : J} (h : wfYear yd) :
    ∃ pl, get_pl yd = .ok pl ∧ wfPL pl := by
  obtain ⟨m, rfl, h1, _, _⟩ := h
  refine ⟨(jLookup m "損益計算書").getD (J.obj []), rfl, ?_⟩
  cases hl : jLookup m "損益計算書" with
  | none => exact wfPL_empty
  | some v =>
    rw [hl] at h1
    exact h1

theorem get_bs_total {yd : J} (h : wfYear yd) :
    ∃ bs, get_bs yd = .ok bs ∧ wfBS bs := by
  obtain ⟨m, rfl, _, h2, _⟩ := h
  refine ⟨(jLookup m "貸借対照表").getD (J.obj []), rfl, ?_⟩
  cases hl : jLookup m "貸借対照表" with
  | none => exact wfBS_empty
  | some v =>
    rw [hl] at h2
    exact h2

theorem get_cf_total {yd : J} (h : wfYear yd) :
    ∃ cf, get_cf yd = .ok cf ∧ wfCF cf := by
  obtain ⟨m, rfl, _, _, h3⟩ := h
  refine ⟨(jLookup m "キャッシュ・フロー計算書").getD (J.obj []), rfl, ?_⟩
  cases hl : jLookup m "キャッシュ・フロー計算書" with
  | none => exact wfCF_empty
  | some v =>
    rw [hl] at h3
    exact h3

theorem ifTruthy_NN (g : J) (e : Except Unit J)
    (he : jTruthy g = true → ∃ v, e = .ok v ∧ NN v) :
    ∃ v, ifTruthy g e = .ok v ∧ NN v := by
  cases ht : jTruthy g with
  | false => exact ⟨J.null, by simp [ifTruthy, ht], Or.inl rfl⟩
  | true =>
    obtain ⟨v, hv, hNN⟩ := he ht
    exact ⟨v, by simp [ifTruthy, ht, hv], hNN⟩

theorem ifTruthy_wf (g : J) (e : Except Unit J) (P : J → Prop)
    (he : jTruthy g = true → ∃ v, e = .ok v ∧ P v) :
    ∃ v, ifTruthy g e = .ok v ∧ (v = J.null ∨ P v) := by
  cases ht : jTruthy g with
  | false => exact ⟨J.null, by simp [ifTruthy, ht], Or.inl rfl⟩
  | true =>
    obtain ⟨v, hv, hP⟩ := he ht
    exact ⟨v, by simp [ifTruthy, ht, hv], Or.inr hP⟩

theorem calc_profitability_total {pl : J} (h : wfPL pl) :
    ∃ p, calc_profitability pl = .ok p := by
  obtain ⟨rev, h1, n1⟩ := acc_revenue_total h
  obtain ⟨cogs, h2, n2⟩ := acc_cogs_total h
  obtain ⟨gross, h3, n3⟩ := acc_gross_profit_total h
  obtain ⟨sga, h4, n4⟩ := acc_sga_total h
  obtain ⟨dep, h8, n8⟩ := acc_sga_detail_total h "販売費及び一般管理費_減価償却費"
  obtain ⟨m, rfl, _, _, _, _, hop, hord, hnet⟩ := h
  obtain ⟨op, h5, n5⟩ := dget_NN hop
  obtain ⟨ord, h6, n6⟩ := dget_NN hord
  obtain ⟨net, h7, n7⟩ := dget_NN hnet
  obtain ⟨v1, f1, _⟩ := pctDiv_NN n3 n1
  obtain ⟨v2, f2, _⟩ := pctDiv_NN n2 n1
  obtain ⟨v3, f3, _⟩ := pctDiv_NN n4 n1
  obtain ⟨v4, f4, _⟩ := pctDiv_NN n5 n1
  obtain ⟨v5, f5, _⟩ := pctDiv_NN n6 n1
  obtain ⟨v6, f6, _⟩ := pctDiv_NN n7 n1
  have haddNN : ∀ v ∈ [op, dep], NN v := by
    intro v hv
    simp only [List.mem_cons, List.not_mem_nil, or_false] at hv
    rcases hv with rfl | rfl
    · exact n5
    · exact n8
  obtain ⟨v7, f7, _⟩ := safe_add_NN haddNN
  exact ⟨_, by
    unfold calc_profitability
    rw [h1, ok_bind, h2, ok_bind, h3, ok_bind, h4, ok_bind, h5, ok_bind,
      h6, ok_bind, h7, ok_bind, h8, ok_bind, f1, ok_bind, f2, ok_bind,
      f3, ok_bind, f4, ok_bind, f5, ok_bind, f6, ok_bind, f7, ok_bind]⟩

theorem calc_growth_total {pl_curr pl_prev : J} (hc : wfPL pl_curr)
    (hp : pl_prev = J.null ∨ wfPL pl_prev) :
    ∃ g, calc_growth pl_curr pl_prev = .ok g := by
  rcases hp with rfl | hw
  · exact ⟨J.null, calc_growth_null _⟩
  · have hne : pl_prev ≠ J.null := by
      obtain ⟨m, rfl, _⟩ := hw
      simp
    obtain ⟨c1, e1, m1⟩ := acc_revenue_total hc
    obtain ⟨p1, e2, m2⟩ := acc_revenue_total hw
    obtain ⟨mc, rfl, _, _, _, _, hopC, hordC, hnetC⟩ := hc
    obtain ⟨mp, rfl, _, _, _, _, hopP, hordP, hnetP⟩ := hw
    obtain ⟨c2, e3, m3⟩ := dget_NN hopC
    obtain ⟨p2, e4, m4⟩ := dget_NN hopP
    obtain ⟨c3, e5, m5⟩ := dget_NN hordC
    obtain ⟨p3, e6, m6⟩ := dget_NN hordP
    obtain ⟨c4, e7, m7⟩ := dget_NN hnetC
    obtain ⟨p4, e8, m8⟩ := dget_NN hnetP
    obtain ⟨g1, f1, _⟩ := growthEntry_NN m1 m2
    obtain ⟨g2, f2, _⟩ := growthEntry_NN m3 m4
    obtain ⟨g3, f3, _⟩ := growthEntry_NN m5 m6
    obtain ⟨g4, f4, _⟩ := growthEntry_NN m7 m8
    exact ⟨_, by
      rw [calc_growth_nonnull hne]
      unfold calc_growth_body
      rw [e1, ok_bind, e2, ok_bind, e3, ok_bind, e4, ok_bind, e5, ok_bind,
        e6, ok_bind, e7, ok_bind, e8, ok_bind, f1, ok_bind, f2, ok_bind,
        f3, ok_bind, f4, ok_bind]⟩

theorem calc_cost_structure_total {pl : J} (h : wfPL pl) :
    ∃ p, calc_cost_structure pl = .ok p := by
  obtain ⟨rev, h1, n1⟩ := acc_revenue_total h
  obtain ⟨gross, h2, n2⟩ := acc_gross_profit_total h
  obtain ⟨pers, h3, n3⟩ := acc_sga_detail_total h "販売費及び一般管理費_人件費"
  obtain ⟨dep, h4, n4⟩ := acc_sga_detail_total h "販売費及び一般管理費_減価償却費"
  obtain ⟨v1, f1, _⟩ := pctDiv_NN n3 n1
  obtain ⟨v2, f2, _⟩ := pctDiv_NN n4 n1
  obtain ⟨v3, f3, _⟩ := safe_sub_NN n2 n3
  exact ⟨_, by
    unfold calc_cost_structure
    rw [h1, ok_bind, h2, ok_bind, h3, ok_bind, h4, ok_bind, f1, ok_bind,
      f2, ok_bind, f3, ok_bind]⟩

theorem calc_efficiency_total {pl bs_curr bs_prev : J} (hpl : wfPL pl)
    (hbs : wfBS bs_curr) (hprev : bs_prev = J.null ∨ wfBS bs_prev) :
    ∃ p, calc_efficiency pl bs_curr bs_prev = .ok p := by
  obtain ⟨rev, h1, n1⟩ := acc_revenue_total hpl
  obtain ⟨taC, h3, n3⟩ := acc_total_assets_total hbs
  obtain ⟨taP, h4, n4⟩ := ifTruthy_NN bs_prev (acc_total_assets bs_prev) (by
    intro ht
    rcases hprev with rfl | hw
    · simp [jTruthy] at ht
    · exact acc_total_assets_total hw)
  obtain ⟨eqC, h6, n6⟩ := acc_net_assets_total hbs
  obtain ⟨eqP, h7, n7⟩ := ifTruthy_NN bs_prev (acc_net_assets bs_prev) (by
    intro ht
    rcases hprev with rfl | hw
    · simp [jTruthy] at ht
    · exact acc_net_assets_total hw)
  obtain ⟨m, rfl, _, _, _, _, _, _, hnet⟩ := hpl
  obtain ⟨net, h2, n2⟩ := dget_NN hnet
  obtain ⟨avgTa, h5, n5⟩ := avg_NN n3 n4
  obtain ⟨avgEq, h8, n8⟩ := avg_NN n6 n7
  obtain ⟨d1, f0, nd1⟩ := safe_div_NN n1 n5
  obtain ⟨v1, f1, _⟩ := round_val_NN nd1
  obtain ⟨v2, f2, _⟩ := pctDiv_NN n2 n5
  obtain ⟨v3, f3, _⟩ := pctDiv_NN n2 n8
  exact ⟨_, by
    unfold calc_efficiency
    rw [h1, ok_bind, h2, ok_bind, h3, ok_bind, h4, ok_bind, h5, ok_bind,
      h6, ok_bind, h7, ok_bind, h8, ok_bind, f0, ok_bind, f1, ok_bind,
      f2, ok_bind, f3, ok_bind]⟩

theorem calc_safety_total {bs : J} (h : wfBS bs) :
    ∃ p, calc_safety bs = .ok p := by
  obtain ⟨ca, h1, n1⟩ := acc_current_assets_total h
  obtain ⟨cl, h2, n2⟩ := acc_current_liab_total h
  obtain ⟨ta, h3, n3⟩ := acc_total_assets_total h
  obtain ⟨eq, h4, n4⟩ := acc_net_assets_total h
  obtain ⟨cash, h5, n5⟩ := acc_current_assets_detail_total h "流動資産_現金及び預金"
  obtain ⟨ar, h6, n6⟩ := acc_current_assets_detail_total h "流動資産_受取手形及び売掛金"
  obtain ⟨car, h7, n7⟩ := acc_current_assets_detail_total h "流動資産_完成工事未収入金"
  have hq : ∀ v ∈ [cash, ar, car], NN v := by
    intro v hv
    simp only [List.mem_cons, List.not_mem_nil, or_false] at hv
    rcases hv with rfl | rfl | rfl
    · exact n5
    · exact n6
    · exact n7
  obtain ⟨quick, h8, n8⟩ := safe_add_NN hq
  obtain ⟨sd, h9, n9⟩ := acc_current_liab_detail_total h "流動負債_短期借入金"
  obtain ⟨sld, h10, n10⟩ := acc_current_liab_detail_total h "流動負債_1年内返済予定長期借入金"
  obtain ⟨ld, h11, n11⟩ := acc_fixed_liab_detail_total h "固定負債_長期借入金"
  have hib : ∀ v ∈ [sd, sld, ld], NN v := by
    intro v hv
    simp only [List.mem_cons, List.not_mem_nil, or_false] at hv
    rcases hv with rfl | rfl | rfl
    · exact n9
    · exact n10
    · exact n11
  obtain ⟨ib, h12, n12⟩ := safe_add_NN hib
  obtain ⟨v1, f1, _⟩ := pctDiv_NN n1 n2
  obtain ⟨v2, f2, _⟩ := pctDiv_NN n8 n2
  obtain ⟨v3, f3, _⟩ := pctDiv_NN n4 n3
  obtain ⟨d4, f4, nd4⟩ := safe_div_NN n12 n4
  obtain ⟨v4, f5, _⟩ := round_val_NN nd4
  exact ⟨_, by
    unfold calc_safety
    rw [h1, ok_bind, h2, ok_bind, h3, ok_bind, h4, ok_bind, h5, ok_bind,
      h6, ok_bind, h7, ok_bind, h8, ok_bind, h9, ok_bind, h10, ok_bind,
      h11, ok_bind, h12, ok_bind, f1, ok_bind, f2, ok_bind, f3, ok_bind,
      f4, ok_bind, f5, ok_bind]⟩

theorem calc_cashflow_total {pl cf cf_prev : J} (hpl : wfPL pl) (hcf : wfCF cf)
    (hprev : cf_prev = J.null ∨ wfCF cf_prev) :
    ∃ p, calc_cashflow pl cf cf_prev = .ok p := by
  obtain ⟨rev, h1, n1⟩ := acc_revenue_total hpl
  obtain ⟨dep, h3, n3⟩ := acc_sga_detail_total hpl "販売費及び一般管理費_減価償却費"
  obtain ⟨m, rfl, _, _, _, _, hop, _, _⟩ := hpl
  obtain ⟨op, h2, n2⟩ := dget_NN hop
  have hadd1 : ∀ v ∈ [op, dep], NN v := by
    intro v hv
    simp only [List.mem_cons, List.not_mem_nil, or_false] at hv
    rcases hv with rfl | rfl
    · exact n2
    · exact n3
  obtain ⟨ebitda, h4, n4⟩ := safe_add_NN hadd1
  obtain ⟨mc, rfl, hcfm⟩ := hcf
  obtain ⟨opcf, h5, n5⟩ := dget_NN (allNN_lookup hcfm "営業活動によるキャッシュ・フロー")
  obtain ⟨invcf, h6, n6⟩ := dget_NN (allNN_lookup hcfm "投資活動によるキャッシュ・フロー")
  obtain ⟨endc, h7, n7⟩ := dget_NN (allNN_lookup hcfm "現金及び現金同等物期末残高")
  obtain ⟨beginc, h8, n8⟩ := ifTruthy_NN cf_prev
    (dget cf_prev "現金及び現金同等物期末残高") (by
    intro ht
    rcases hprev with rfl | hw
    · simp [jTruthy] at ht
    · obtain ⟨mp, rfl, hmp⟩ := hw
      exact dget_NN (allNN_lookup hmp "現金及び現金同等物期末残高"))
  obtain ⟨v1, f1, _⟩ := pctDiv_NN n5 n1
  have hadd2 : ∀ v ∈ [opcf, invcf], NN v := by
    intro v hv
    simp only [List.mem_cons, List.not_mem_nil, or_false] at hv
    rcases hv with rfl | rfl
    · exact n5
    · exact n6
  obtain ⟨v2, f2, _⟩ := safe_add_NN hadd2
  obtain ⟨d3, f3, nd3⟩ := safe_div_NN n5 n4
  obtain ⟨v3, f4, _⟩ := round_val_NN nd3
  obtain ⟨v4, f5, _⟩ := safe_sub_NN n7 n8
  exact ⟨_, by
    unfold calc_cashflow
    rw [h1, ok_bind, h2, ok_bind, h3, ok_bind, h4, ok_bind, h5, ok_bind,
      h6, ok_bind, h7, ok_bind, h8, ok_bind, f1, ok_bind, f2, ok_bind,
      f3, ok_bind, f4, ok_bind, f5, ok_bind]⟩

theorem calc_construction_total {pl bs_curr bs_prev : J} (hpl : wfPL pl)
    (hbs : wfBS bs_curr) (hprev : bs_prev = J.null ∨ wfBS bs_prev) :
    ∃ p, calc_construction pl bs_curr bs_prev = .ok p := by
  obtain ⟨car, h1, n1⟩ := acc_current_assets_detail_total hbs "流動資産_完成工事未収入金"
  obtain ⟨wip, h2, n2⟩ := acc_current_assets_detail_total hbs "流動資産_未成工事支出金"
  obtain ⟨cap, h3, n3⟩ := acc_current_liab_detail_total hbs "流動負債_工事未払金"
  obtain ⟨adv, h4, n4⟩ := acc_current_liab_detail_total hbs "流動負債_未成工事受入金"
  have ha1 : ∀ v ∈ [car, wip], NN v := by
    intro v hv
    simp only [List.mem_cons, List.not_mem_nil, or_false] at hv
    rcases hv with rfl | rfl
    · exact n1
    · exact n2
  obtain ⟨s1, h5, n5⟩ := safe_add_NN ha1
  have ha2 : ∀ v ∈ [cap, adv], NN v := by
    intro v hv
    simp only [List.mem_cons, List.not_mem_nil, or_false] at hv
    rcases hv with rfl | rfl
    · exact n3
    · exact n4
  obtain ⟨s2, h6, n6⟩ := safe_add_NN ha2
  obtain ⟨cwc, h7, _⟩ := safe_sub_NN n5 n6
  obtain ⟨ca, h8, n8⟩ := acc_current_assets_total hbs
  obtain ⟨cash, h9, n9⟩ := acc_current_assets_detail_total hbs "流動資産_現金及び預金"
  obtain ⟨cl, h10, n10⟩ := acc_current_liab_total hbs
  obtain ⟨sd, h11, n11⟩ := acc_current_liab_detail_total hbs "流動負債_短期借入金"
  obtain ⟨na1, h12, nn1⟩ := safe_sub_NN n8 n9
  obtain ⟨na2, h13, nn2⟩ := safe_sub_NN n10 n11
  obtain ⟨nwc, h14, _⟩ := safe_sub_NN nn1 nn2
  obtain ⟨rev, h15, n15⟩ := acc_revenue_total hpl
  obtain ⟨arc1, h16, n16⟩ := acc_current_assets_detail_total hbs "流動資産_受取手形及び売掛金"
  have ha3 : ∀ v ∈ [arc1, car], NN v := by
    intro v hv
    simp only [List.mem_cons, List.not_mem_nil, or_false] at hv
    rcases hv with rfl | rfl
    · exact n16
    · exact n1
  obtain ⟨arC, h18, n18⟩ := safe_add_NN ha3
  obtain ⟨arP, h19, n19⟩ := ifTruthy_NN bs_prev (do
    let a1 ← acc_current_assets_detail bs_prev "流動資産_受取手形及び売掛金"
    let a2 ← acc_current_assets_detail bs_prev "流動資産_完成工事未収入金"
    safe_add [a1, a2]) (by
    intro ht
    rcases hprev with rfl | hw
    · simp [jTruthy] at ht
    · obtain ⟨a1, g1, q1⟩ := acc_current_assets_detail_total hw "流動資産_受取手形及び売掛金"
      obtain ⟨a2, g2, q2⟩ := acc_current_assets_detail_total hw "流動資産_完成工事未収入金"
      have ha : ∀ v ∈ [a1, a2], NN v := by
        intro v hv
        simp only [List.mem_cons, List.not_mem_nil, or_false] at hv
        rcases hv with rfl | rfl
        · exact q1
        · exact q2
      obtain ⟨sv, hs, qs⟩ := safe_add_NN ha
      exact ⟨sv, by rw [g1, ok_bind, g2, ok_bind, hs], qs⟩)
  obtain ⟨avgAr, h20, n20⟩ := avg_NN n18 n19
  obtain ⟨arDays, h21, _⟩ := turnoverDays_NN n20 n15
  obtain ⟨cogs, h22, n22⟩ := acc_cogs_total hpl
  obtain ⟨apP, h24, n24⟩ := ifTruthy_NN bs_prev
    (acc_current_liab_detail bs_prev "流動負債_工事未払金") (by
    intro ht
    rcases hprev with rfl | hw
    · simp [jTruthy] at ht
    · exact acc_current_liab_detail_total hw "流動負債_工事未払金")
  obtain ⟨avgAp, h25, n25⟩ := avg_NN n3 n24
  obtain ⟨apDays, h26, _⟩ := turnoverDays_NN n25 n22
  exact ⟨_, by
    unfold calc_construction
    rw [h1, ok_bind, h2, ok_bind, h3, ok_bind, h4, ok_bind, h5, ok_bind,
      h6, ok_bind, h7, ok_bind, h8, ok_bind, h9, ok_bind, h10, ok_bind,
      h11, ok_bind, h12, ok_bind, h13, ok_bind, h14, ok_bind, h15, ok_bind,
      h16, ok_bind, ok_bind, h18, ok_bind, h19, ok_bind, h20, ok_bind,
      h21, ok_bind, h22, ok_bind, ok_bind, h24, ok_bind, h25, ok_bind,
      h26, ok_bind]⟩

theorem yearPanel_total {prev yd : J} (hy : wfYear yd)
    (hprev : prev = J.null ∨ wfYear prev) :
    ∃ panel, yearPanel prev yd = .ok panel := by
  obtain ⟨pl, hpl, wpl⟩ := get_pl_total hy
  obtain ⟨bs, hbs, wbs⟩ := get_bs_total hy
  obtain ⟨cf, hcf, wcf⟩ := get_cf_total hy
  obtain ⟨plp, hplp, wplp⟩ := ifTruthy_wf prev (get_pl prev) wfPL (by
    intro ht
    rcases hprev with rfl | hw
    · simp [jTruthy] at ht
    · exact get_pl_total hw)
  obtain ⟨bsp, hbsp, wbsp⟩ := ifTruthy_wf prev (get_bs prev) wfBS (by
    intro ht
    rcases hprev with rfl | hw
    · simp [jTruthy] at ht
    · exact get_bs_total hw)
  obtain ⟨cfp, hcfp, wcfp⟩ := ifTruthy_wf prev (get_cf prev) wfCF (by
    intro ht
    rcases hprev with rfl | hw
    · simp [jTruthy] at ht
    · exact get_cf_total hw)
  obtain ⟨prof, f1⟩ := calc_profitability_total wpl
  obtain ⟨growth, f2⟩ := calc_growth_total wpl wplp
  obtain ⟨cost, f3⟩ := calc_cost_structure_total wpl
  obtain ⟨eff, f4⟩ := calc_efficiency_total wpl wbs wbsp
  obtain ⟨safety, f5⟩ := calc_safety_total wbs
  obtain ⟨cfi, f6⟩ := calc_cashflow_total wpl wcf wcfp
  obtain ⟨constr, f7⟩ := calc_construction_total wpl wbs wbsp
  obtain ⟨m, rfl, _, _, _⟩ := hy
  exact ⟨_, by
    unfold yearPanel
    rw [dget_obj, ok_bind, hpl, ok_bind, hbs, ok_bind, hcf, ok_bind,
      hplp, ok_bind, hbsp, ok_bind, hcfp, ok_bind, f1, ok_bind, f2, ok_bind,
      f3, ok_bind, f4, ok_bind, f5, ok_bind, f6, ok_bind, f7, ok_bind]⟩

theorem processYears_total {ys : List J} :
    ∀ {prev : J}, (∀ y ∈ ys, wfYear y) → (prev = J.null ∨ wfYear prev) →
      ∃ out, processYears prev ys = .ok out := by
  induction ys with
  | nil =>
    intro prev _ _
    exact ⟨[], rfl⟩
  | cons yd rest ih =>
    intro prev hys hprev
    obtain ⟨panel, hp⟩ := yearPanel_total (hys yd (by simp)) hprev
    obtain ⟨more, hm⟩ := ih (fun y hy => hys y (by simp [hy]))
      (Or.inr (hys yd (by simp)))
    refine ⟨panel :: more, ?_⟩
    unfold processYears
    rw [hp, ok_bind, hm, ok_bind]

theorem calculate_indices_total {cd : J} (h : wfCompany cd) :
    ∃ info panels, calculate_indices cd =
      .ok (J.obj [("企業情報", info), ("指標", J.arr panels)]) := by
  obtain ⟨m, rfl, hfin⟩ := h
  cases hl : jLookup m "財務データ" with
  | none =>
    refine ⟨(jLookup m "企業情報").getD (J.obj []), [], ?_⟩
    unfold calculate_indices
    rw [show dgetD (J.obj m) "財務データ" (J.arr []) =
      .ok ((jLookup m "財務データ").getD (J.arr [])) from rfl, hl]
    rfl
  | some fv =>
    rw [hl] at hfin
    cases fv with
    | arr xs =>
      obtain ⟨out, hout⟩ := processYears_total (fun y hy => hfin y hy) (Or.inl rfl)
      refine ⟨(jLookup m "企業情報").getD (J.obj []), out, ?_⟩
      unfold calculate_indices
      rw [show dgetD (J.obj m) "財務データ" (J.arr []) =
        .ok ((jLookup m "財務データ").getD (J.arr [])) from rfl, hl]
      show ((Except.ok (J.arr xs) : Except Unit J) >>=
        fun fy => iterYears fy >>= fun years => processYears J.null years >>=
          fun panels => dgetD (J.obj m) "企業情報" (J.obj []) >>= fun info =>
            .ok (J.obj [("企業情報", info), ("指標", J.arr panels)])) = _
      rw [ok_bind, show iterYears (J.arr xs) = .ok xs from rfl, ok_bind,
        hout, ok_bind, show dgetD (J.obj m) "企業情報" (J.obj []) =
          .ok ((jLookup m "企業情報").getD (J.obj [])) from rfl, ok_bind]
    | null => exact hfin.elim
    | num q => exact hfin.elim
    | str sv => exact hfin.elim
    | obj mo => exact hfin.elim

/-- Once a path level resolved to `None`, every further `or {}`-guarded
step yields `None`. -/
theorem accPath_from_null : ∀ (ks : List String), ks ≠ [] →
    accPath (jOrEmpty J.null) ks = .ok J.null := by
  intro ks
  induction ks with
  | nil => intro h; exact absurd rfl h
  | cons k ks2 ih =>
    intro _
    cases ks2 with
    | nil => rfl
    | cons k3 ks3 =>
      rw [show accPath (jOrEmpty J.null) (k :: k3 :: ks3) =
        (dget (jOrEmpty J.null) k >>= fun w => accPath (jOrEmpty w) (k3 :: ks3))
        from rfl]
      rw [show dget (jOrEmpty J.null) k = .ok J.null from rfl, ok_bind]
      exact ih (by simp)

/-- A key missing at the current level makes the whole remaining path
resolve to `None`. -/
theorem accPath_missing {m : List (String × J)} {k : String}
    {ks : List String} (h : jLookup m k = none) :
    accPath (J.obj m) (k :: ks) = .ok J.null := by
  cases ks with
  | nil =>
    rw [show accPath (J.obj m) [k] = dget (J.obj m) k from rfl, dget_obj, h]
    rfl
  | cons k2 ks2 =>
    rw [show accPath (J.obj m) (k :: k2 :: ks2) =
      (dget (J.obj m) k >>= fun w => accPath (jOrEmpty w) (k2 :: ks2)) from rfl,
      dget_obj, h]
    rw [show ((none : Option J).getD J.null) = J.null from rfl, ok_bind]
    exact accPath_from_null (k2 :: ks2) (by simp)

/-- A present level steps into its value. -/
theorem accPath_step {m : List (String × J)} {k : String} {v : J}
    {ks : List String} (h : jLookup m k = some v) (hne : ks ≠ []) :
    accPath (J.obj m) (k :: ks) = accPath (jOrEmpty v) ks := by
  cases ks with
  | nil => exact absurd rfl hne
  | cons k2 ks2 =>
    rw [show accPath (J.obj m) (k :: k2 :: ks2) =
      (dget (J.obj m) k >>= fun w => accPath (jOrEmpty w) (k2 :: ks2)) from rfl,
      dget_obj, h]
    rw [show ((some v).getD J.null) = v from rfl, ok_bind]

end Lemmas

section Claims

/-- C1: for every company input, the output indicator-panel sequence
of `calculate_indices` has exactly the same length as the input
statement-year list, and the i-th panel carries the i-th input year's
`YEAR` label, in the same order. -/
theorem panels_match_years {cd r : J} {ys : List J}
    (hy : getField cd "財務データ" = some (J.arr ys))
    (h : calculate_indices cd = .ok r) :
    ∃ panels : List J, getField r "指標" = some (J.arr panels) ∧
      panels.length = ys.length ∧
      ∀ i : ℕ, i < ys.length →
        ∃ y panel yv, ys.get? i = some y ∧ panels.get? i = some panel ∧
          dget y "YEAR" = .ok yv ∧ getField panel "YEAR" = some yv := by
  obtain ⟨fin_years, years, panels, info, h1, h2, h3, h4, rfl⟩ :=
    calculate_indices_inv h
  have hm : ∃ m, cd = J.obj m := by
    cases cd
    case obj m => exact ⟨m, rfl⟩
    all_goals exact absurd hy (by simp [getField])
  obtain ⟨m, rfl⟩ := hm
  rw [show getField (J.obj m) "財務データ" = jLookup m "財務データ" from rfl] at hy
  rw [show dgetD (J.obj m) "財務データ" (J.arr []) =
    .ok ((jLookup m "財務データ").getD (J.arr [])) from rfl, hy] at h1
  have hfy : fin_years = J.arr ys := (Except.ok.inj h1).symm
  subst hfy
  have hys : years = ys :=
    (Except.ok.inj (show (Except.ok ys : Except Unit (List J)) = .ok years from h2)).symm
  subst hys
  exact ⟨panels, by simp [getField, jLookup], processYears_length h3,
    processYears_year_at h3⟩

/-- C2: `_safe_div` is absent when either operand is absent or the
denominator is zero (including numerator 0 or absent), and is the exact
quotient otherwise; consequently a current ratio with current
liabilities 0 is absent, not infinite, not an error. -/
theorem safe_div_degenerate_absent :
    (∀ b : J, safe_div J.null b = .ok J.null) ∧
    (∀ a : J, safe_div a J.null = .ok J.null) ∧
    (∀ a : J, safe_div a (J.num 0) = .ok J.null) ∧
    (∀ x y : ℚ, y ≠ 0 → safe_div (J.num x) (J.num y) = .ok (J.num (x / y))) ∧
    calc_safety bsZeroCL = .ok (J.obj [("流動比率", J.null), ("当座比率", J.null),
      ("自己資本比率", J.null), ("D/Eレシオ", J.null)]) := by
  refine ⟨safe_div_null_left, safe_div_null_right, safe_div_num_zero,
    fun x y hy => by simp [safe_div, jEq0, hy], ?_⟩
  with_unfolding_all rfl

theorem safe_div_degenerate_absent_witness :
    safe_div (J.num 1) (J.num 3) = .ok (J.num (1 / 3)) :=
  safe_div_degenerate_absent.2.2.2.1 1 3 (by norm_num)

/-- C5: `_safe_add` is absent only when all operands are absent and
otherwise sums exactly the present operands; EBITDA with absent
depreciation equals operating income alone, while the strict
`_safe_sub` with an absent operand is absent. -/
theorem safe_add_no_op_policy :
    (∀ vs : List J, (∀ v ∈ vs, v = J.null) → safe_add vs = .ok J.null) ∧
    (∀ vs : List J, (∀ v ∈ vs, NN v) → (∃ v ∈ vs, v ≠ J.null) →
      safe_add vs = .ok (J.num ((vs.filterMap toQ).sum))) ∧
    (∀ pl p : J, ∀ a : ℚ, calc_profitability pl = .ok p →
      dget pl "営業利益" = .ok (J.num a) →
      acc_sga_detail pl "販売費及び一般管理費_減価償却費" = .ok J.null →
      getField p "EBITDA" = some (J.num a)) ∧
    (∀ a : J, safe_sub a J.null = .ok J.null) ∧
    (∀ b : J, safe_sub J.null b = .ok J.null) := by
  refine ⟨fun vs h => safe_add_all_null h,
    fun vs h hne => safe_add_present_sum h hne, ?_, safe_sub_null_right,
    safe_sub_null_left⟩
  intro pl p a h hop hdep
  obtain ⟨revenue, cogs, gross, sga, op_income, ord_income, net_income, dep,
    v1, v2, v3, v4, v5, v6, v7, _, _, _, _, e5, _, _, e8,
    _, _, _, _, _, _, f7, rfl⟩ := calc_profitability_inv h
  have hop2 : op_income = J.num a := Except.ok.inj (e5.symm.trans hop)
  have hdep2 : dep = J.null := Except.ok.inj (e8.symm.trans hdep)
  subst hop2; subst hdep2
  have hNN : ∀ v ∈ [J.num a, J.null], NN v := by
    intro v hv
    simp only [List.mem_cons, List.not_mem_nil, or_false] at hv
    rcases hv with rfl | rfl
    · exact Or.inr ⟨a, rfl⟩
    · exact Or.inl rfl
  have hadd : safe_add [J.num a, J.null] = .ok (J.num a) := by
    rw [safe_add_present_sum hNN ⟨J.num a, by simp, by simp⟩]
    norm_num [List.filterMap_cons]
  have hv7 : v7 = J.num a := Except.ok.inj (f7.symm.trans hadd)
  subst hv7
  simp [getField, jLookup]

theorem safe_add_no_op_policy_witness :
    safe_add [J.null, J.num 7, J.null, J.num 5] = .ok (J.num 12) ∧
    getField (J.obj [("売上総利益率", J.null), ("原価率", J.null), ("販管費率", J.null),
      ("営業利益率", J.null), ("経常利益率", J.null), ("純利益率", J.null),
      ("EBITDA", J.num 80)]) "EBITDA" = some (J.num 80) := by
  have hNN : ∀ v ∈ [J.null, J.num 7, J.null, J.num 5], NN v := by
    intro v hv
    simp only [List.mem_cons, List.not_mem_nil, or_false] at hv
    rcases hv with rfl | rfl | rfl | rfl
    · exact Or.inl rfl
    · exact Or.inr ⟨7, rfl⟩
    · exact Or.inl rfl
    · exact Or.inr ⟨5, rfl⟩
  constructor
  · have := safe_add_no_op_policy.2.1 [J.null, J.num 7, J.null, J.num 5]
      hNN ⟨J.num 7, by simp, by simp⟩
    rw [this]
    norm_num [List.filterMap_cons]
  · exact safe_add_no_op_policy.2.2.1 plOpOnly
      (J.obj [("売上総利益率", J.null), ("原価率", J.null), ("販管費率", J.null),
        ("営業利益率", J.null), ("経常利益率", J.null), ("純利益率", J.null),
        ("EBITDA", J.num 80)]) 80 (by with_unfolding_all rfl) rfl rfl

/-- C6: each YoY growth entry is `(current − previous) / |previous|`
as a percentage rounded to two decimals, absent when the previous value
is zero or either value is absent; previous −100 → current 50 gives
150.00 and previous 800 → current 1000 gives 25.00. -/
theorem growth_formula :
    (∀ c p : ℚ, p ≠ 0 →
      growthEntry (J.num c) (J.num p) = .ok (J.num (round2 ((c - p) / |p| * 100)))) ∧
    (∀ c : ℚ, growthEntry (J.num c) (J.num 0) = .ok J.null) ∧
    (∀ c : J, growthEntry c J.null = .ok J.null) ∧
    (∀ p : ℚ, growthEntry J.null (J.num p) = .ok J.null) ∧
    (∀ pl pp g : J, ∀ c p : ℚ, calc_growth pl pp = .ok g → pp ≠ J.null →
      acc_revenue pl = .ok (J.num c) → acc_revenue pp = .ok (J.num p) → p ≠ 0 →
      getField g "売上高成長率" = some (J.num (round2 ((c - p) / |p| * 100)))) ∧
    (∀ pl pp g : J, ∀ c p : ℚ, calc_growth pl pp = .ok g → pp ≠ J.null →
      dget pl "営業利益" = .ok (J.num c) → dget pp "営業利益" = .ok (J.num p) → p ≠ 0 →
      getField g "営業利益成長率" = some (J.num (round2 ((c - p) / |p| * 100)))) ∧
    (∀ pl pp g : J, ∀ c p : ℚ, calc_growth pl pp = .ok g → pp ≠ J.null →
      dget pl "経常利益" = .ok (J.num c) → dget pp "経常利益" = .ok (J.num p) → p ≠ 0 →
      getField g "経常利益成長率" = some (J.num (round2 ((c - p) / |p| * 100)))) ∧
    (∀ pl pp g : J, ∀ c p : ℚ, calc_growth pl pp = .ok g → pp ≠ J.null →
      dget pl "当期純利益" = .ok (J.num c) → dget pp "当期純利益" = .ok (J.num p) → p ≠ 0 →
      getField g "当期純利益成長率" = some (J.num (round2 ((c - p) / |p| * 100)))) ∧
    indicator (calc_growth plRev1000 plRev800) "売上高成長率" = some (J.num 25) ∧
    indicator (calc_growth plOp50 plOpNeg100) "営業利益成長率" = some (J.num 150) := by
  have hentry : ∀ c p : ℚ, p ≠ 0 →
      growthEntry (J.num c) (J.num p) = .ok (J.num (round2 ((c - p) / |p| * 100))) := by
    intro c p hp
    have habs : |p| ≠ 0 := abs_ne_zero.mpr hp
    unfold growthEntry
    rw [show safe_sub (J.num c) (J.num p) = .ok (J.num (c - p)) from rfl, ok_bind,
      show absIfTruthy (J.num p) = .ok (J.num |p|) by simp [absIfTruthy, hp], ok_bind,
      show safe_div (J.num (c - p)) (J.num |p|) = .ok (J.num ((c - p) / |p|)) by
        simp [safe_div, jEq0, habs], ok_bind]
    rfl
  refine ⟨hentry, ?_, ?_, ?_, ?_, ?_, ?_, ?_, ?_, ?_⟩
  · intro c
    unfold growthEntry
    rw [show safe_sub (J.num c) (J.num 0) = .ok (J.num (c - 0)) from rfl, ok_bind,
      show absIfTruthy (J.num 0) = .ok J.null by simp [absIfTruthy], ok_bind,
      safe_div_null_right, ok_bind]
    rfl
  · intro c
    unfold growthEntry
    rw [safe_sub_null_right, ok_bind,
      show absIfTruthy J.null = .ok J.null from rfl, ok_bind,
      show safe_div J.null J.null = .ok J.null from rfl, ok_bind]
    rfl
  · intro p
    unfold growthEntry
    rw [safe_sub_null_left, ok_bind]
    by_cases hp : p = 0
    · rw [show absIfTruthy (J.num p) = .ok J.null by simp [absIfTruthy, hp], ok_bind,
        show safe_div J.null J.null = .ok J.null from rfl, ok_bind]
      rfl
    · rw [show absIfTruthy (J.num p) = .ok (J.num |p|) by simp [absIfTruthy, hp], ok_bind,
        safe_div_null_left, ok_bind]
      rfl
  · intro pl pp g c p h hpp hc hp hpz
    rw [calc_growth_nonnull hpp] at h
    obtain ⟨c1, p1, _, _, _, _, _, _, g1, _, _, _, e1, e2, _, _, _, _, _, _,
      f1, _, _, _, rfl⟩ := calc_growth_body_inv h
    have : c1 = J.num c := Except.ok.inj (e1.symm.trans hc)
    subst this
    have : p1 = J.num p := Except.ok.inj (e2.symm.trans hp)
    subst this
    have : g1 = J.num (round2 ((c - p) / |p| * 100)) :=
      Except.ok.inj (f1.symm.trans (hentry c p hpz))
    subst this
    simp [getField, jLookup]
  · intro pl pp g c p h hpp hc hp hpz
    rw [calc_growth_nonnull hpp] at h
    obtain ⟨_, _, c2, p2, _, _, _, _, _, g2, _, _, _, _, e1, e2, _, _, _, _,
      _, f2, _, _, rfl⟩ := calc_growth_body_inv h
    have : c2 = J.num c := Except.ok.inj (e1.symm.trans hc)
    subst this
    have : p2 = J.num p := Except.ok.inj (e2.symm.trans hp)
    subst this
    have : g2 = J.num (round2 ((c - p) / |p| * 100)) :=
      Except.ok.inj (f2.symm.trans (hentry c p hpz))
    subst this
    simp [getField, jLookup]
  · intro pl pp g c p h hpp hc hp hpz
    rw [calc_growth_nonnull hpp] at h
    obtain ⟨_, _, _, _, c3, p3, _, _, _, _, g3, _, _, _, _, _, e1, e2, _, _,
      _, _, f3, _, rfl⟩ := calc_growth_body_inv h
    have : c3 = J.num c := Except.ok.inj (e1.symm.trans hc)
    subst this
    have : p3 = J.num p := Except.ok.inj (e2.symm.trans hp)
    subst this
    have : g3 = J.num (round2 ((c - p) / |p| * 100)) :=
      Except.ok.inj (f3.symm.trans (hentry c p hpz))
    subst this
    simp [getField, jLookup]
  · intro pl pp g c p h hpp hc hp hpz
    rw [calc_growth_nonnull hpp] at h
    obtain ⟨_, _, _, _, _, _, c4, p4, _, _, _, g4, _, _, _, _, _, _, e1, e2,
      _, _, _, f4, rfl⟩ := calc_growth_body_inv h
    have : c4 = J.num c := Except.ok.inj (e1.symm.trans hc)
    subst this
    have : p4 = J.num p := Except.ok.inj (e2.symm.trans hp)
    subst this
    have : g4 = J.num (round2 ((c - p) / |p| * 100)) :=
      Except.ok.inj (f4.symm.trans (hentry c p hpz))
    subst this
    simp [getField, jLookup]
  · with_unfolding_all rfl
  · with_unfolding_all rfl

theorem growth_formula_witness :
    growthEntry (J.num 50) (J.num (-100)) = .ok (J.num 150) := by
  have := growth_formula.1 50 (-100) (by norm_num)
  rw [this]
  norm_num
  with_unfolding_all rfl

/-- C8: `_avg` is the two-point mean when both values are present,
the single present value when exactly one is present, absent only when
both are absent; first-year ROA with total assets 1000 and net income
100 is 10.00, not absent. -/
theorem avg_degrades_gracefully :
    (∀ c p : ℚ, avg (J.num c) (J.num p) = .ok (J.num ((c + p) / 2))) ∧
    (∀ v : J, avg J.null v = .ok v) ∧
    (∀ c : ℚ, avg (J.num c) J.null = .ok (J.num c)) ∧
    avg J.null J.null = .ok J.null ∧
    indicator (calc_efficiency plROA bsROA J.null) "ROA" = some (J.num 10) := by
  refine ⟨fun c p => rfl, avg_null_left, fun c => rfl, rfl, ?_⟩
  with_unfolding_all rfl

/-- C10: a company record without a `財務データ` list, or with an
empty one, yields an empty indicator sequence and the company info
passed through (an empty mapping when absent), with no error. -/
theorem empty_financial_data {m : List (String × J)}
    (h : jLookup m "財務データ" = none ∨ jLookup m "財務データ" = some (J.arr [])) :
    calculate_indices (J.obj m) =
      .ok (J.obj [("企業情報", (jLookup m "企業情報").getD (J.obj [])),
        ("指標", J.arr [])]) := by
  rcases h with h | h <;>
  · unfold calculate_indices
    rw [show dgetD (J.obj m) "財務データ" (J.arr []) =
      .ok ((jLookup m "財務データ").getD (J.arr [])) from rfl, h]
    rfl

theorem empty_financial_data_witness :
    calculate_indices (J.obj []) =
      .ok (J.obj [("企業情報", J.obj []), ("指標", J.arr [])]) :=
  empty_financial_data (Or.inl rfl)

theorem panels_match_years_witness :
    ∃ panels : List J,
      getField (J.obj [("企業情報", J.obj []), ("指標", J.arr [emptyPanel])]) "指標" =
        some (J.arr panels) ∧
      panels.length = [(J.obj [] : J)].length ∧
      ∀ i : ℕ, i < [(J.obj [] : J)].length →
        ∃ y panel yv, [(J.obj [] : J)].get? i = some y ∧
          panels.get? i = some panel ∧
          dget y "YEAR" = .ok yv ∧ getField panel "YEAR" = some yv :=
  @panels_match_years company0
    (J.obj [("企業情報", J.obj []), ("指標", J.arr [emptyPanel])]) [J.obj []]
    (by with_unfolding_all rfl) (by with_unfolding_all rfl)

/-- C3: for the first statement-year of any series, the growth
category and the cash-balance-delta indicator (現金増減額) are absent —
never the number zero. -/
theorem first_year_growth_cash_delta_absent {cd r p : J} {rest : List J}
    (h : calculate_indices cd = .ok r)
    (hp : getField r "指標" = some (J.arr (p :: rest))) :
    getField p "成長性指標" = some J.null ∧
    ∃ cfobj, getField p "キャッシュフロー関連指標" = some cfobj ∧
      getField cfobj "現金増減額" = some J.null := by
  obtain ⟨fin_years, years, panels, info, h1, h2, h3, h4, rfl⟩ :=
    calculate_indices_inv h
  have hpanels : panels = p :: rest := by
    simp [getField, jLookup] at hp
    exact hp
  subst hpanels
  cases years with
  | nil =>
    rw [show processYears J.null ([] : List J) = .ok [] from rfl] at h3
    exact absurd (Except.ok.inj h3) (by simp)
  | cons y ys2 =>
    obtain ⟨panel, more, hyp, hrest, heq⟩ := processYears_cons_inv h3
    have hpp : panel = p := (List.cons.inj heq).1.symm
    subst hpp
    exact yearPanel_null_prev hyp

theorem first_year_growth_cash_delta_absent_witness :
    getField emptyPanel "成長性指標" = some J.null ∧
    ∃ cfobj, getField emptyPanel "キャッシュフロー関連指標" = some cfobj ∧
      getField cfobj "現金増減額" = some J.null :=
  @first_year_growth_cash_delta_absent company0
    (J.obj [("企業情報", J.obj []), ("指標", J.arr [emptyPanel])]) emptyPanel []
    (by with_unfolding_all rfl) (by with_unfolding_all rfl)

/-- C4 counterexample: on a company whose single statement-year is
empty, the produced first panel carries the growth category as the
absent value `null` — not as a mapping with absent indicator values. -/
theorem growth_category_not_mapping :
    calculate_indices company0 =
      .ok (J.obj [("企業情報", J.obj []), ("指標", J.arr [emptyPanel])]) ∧
    getField emptyPanel "成長性指標" = some J.null ∧
    isObjJ J.null = false :=
  ⟨by with_unfolding_all rfl, by with_unfolding_all rfl, rfl⟩

/-- C4 (amended): every produced panel carries all 7 category keys
(plus `YEAR`); the six non-growth categories are always mappings with
their complete indicator key sets (unresolvable indicators appear with
absent values); the growth category is either a mapping of its four
indicators or — when there is no usable preceding year, in particular
for the first year of a series — the absent value itself under its key,
never a missing key. -/
theorem panel_categories_amended :
    (∀ cd r : J, ∀ panels : List J, calculate_indices cd = .ok r →
      getField r "指標" = some (J.arr panels) →
      ∀ panel ∈ panels, ∃ year prof growth cost eff safety cfi constr,
        panel = J.obj [("YEAR", year), ("収益性指標", prof), ("成長性指標", growth),
          ("コスト構造・固定費分析", cost), ("効率性指標", eff),
          ("安全性・財務健全性", safety), ("キャッシュフロー関連指標", cfi),
          ("建設業特有指標", constr)] ∧
        (∃ v1 v2 v3 v4 v5 v6 v7, prof = J.obj [("売上総利益率", v1), ("原価率", v2),
          ("販管費率", v3), ("営業利益率", v4), ("経常利益率", v5), ("純利益率", v6),
          ("EBITDA", v7)]) ∧
        (growth = J.null ∨ ∃ g1 g2 g3 g4, growth = J.obj [("売上高成長率", g1),
          ("営業利益成長率", g2), ("経常利益成長率", g3), ("当期純利益成長率", g4)]) ∧
        (∃ w1 w2 w3, cost = J.obj [("人件費率", w1), ("減価償却費率", w2),
          ("付加価値額（売上総利益−人件費）", w3)]) ∧
        (∃ x1 x2 x3, eff = J.obj [("総資産回転率", x1), ("ROA", x2), ("ROE", x3)]) ∧
        (∃ y1 y2 y3 y4, safety = J.obj [("流動比率", y1), ("当座比率", y2),
          ("自己資本比率", y3), ("D/Eレシオ", y4)]) ∧
        (∃ z1 z2 z3 z4, cfi = J.obj [("営業CFマージン", z1), ("フリーキャッシュフロー", z2),
          ("営業CF÷EBITDA", z3), ("現金増減額", z4)]) ∧
        (∃ u1 u2 u3 u4, constr = J.obj [("工事運転資本", u1), ("ネット運転資本（簡易）", u2),
          ("売上債権回転期間（日）", u3), ("仕入債務回転期間（日）", u4)])) ∧
    (∀ cd r p : J, ∀ rest : List J, calculate_indices cd = .ok r →
      getField r "指標" = some (J.arr (p :: rest)) →
      getField p "成長性指標" = some J.null) := by
  constructor
  · intro cd r panels h hp panel hmem
    obtain ⟨fin_years, years, panels2, info, h1, h2, h3, h4, rfl⟩ :=
      calculate_indices_inv h
    have hpp : panels2 = panels := by
      simp [getField, jLookup] at hp
      exact hp
    subst hpp
    obtain ⟨pv, yd, hyp⟩ := processYears_mem h3 panel hmem
    obtain ⟨year, pl, bs, cf, pl_prev, bs_prev, cf_prev, prof, growth, cost,
      eff, safety, cfi, constr, e1, e2, e3, e4, e5, e6, e7,
      f1, f2, f3, f4, f5, f6, f7, rfl⟩ := yearPanel_inv hyp
    refine ⟨year, prof, growth, cost, eff, safety, cfi, constr, rfl,
      ?_, calc_growth_shape f2, ?_, ?_, ?_, ?_, ?_⟩
    · obtain ⟨_, _, _, _, _, _, _, _, v1, v2, v3, v4, v5, v6, v7,
        _, _, _, _, _, _, _, _, _, _, _, _, _, _, _, rfl⟩ :=
        calc_profitability_inv f1
      exact ⟨v1, v2, v3, v4, v5, v6, v7, rfl⟩
    · obtain ⟨_, _, _, _, w1, w2, w3, _, _, _, _, _, _, _, rfl⟩ :=
        calc_cost_structure_inv f3
      exact ⟨w1, w2, w3, rfl⟩
    · obtain ⟨_, _, _, _, _, _, _, _, _, x1, x2, x3,
        _, _, _, _, _, _, _, _, _, _, _, _, rfl⟩ := calc_efficiency_inv f4
      exact ⟨x1, x2, x3, rfl⟩
    · obtain ⟨_, _, _, _, _, _, _, _, _, _, _, _, _, y1, y2, y3, y4,
        _, _, _, _, _, _, _, _, _, _, _, _, _, _, _, _, _, rfl⟩ :=
        calc_safety_inv f5
      exact ⟨y1, y2, y3, y4, rfl⟩
    · obtain ⟨_, _, _, _, _, _, _, _, _, z1, z2, z3, z4,
        _, _, _, _, _, _, _, _, _, _, _, _, _, rfl⟩ := calc_cashflow_inv f6
      exact ⟨z1, z2, z3, z4, rfl⟩
    · obtain ⟨_, _, _, _, _, _, u1, _, _, _, _, _, _, u2, _, _, _, _, _, _,
        u3, _, _, _, _, u4, _, _, _, _, _, _, _, _, _, _, _, _, _, _, _, _,
        _, _, _, _, _, _, _, _, _, _, rfl⟩ := calc_construction_inv f7
      exact ⟨u1, u2, u3, u4, rfl⟩
  · intro cd r p rest h hp
    obtain ⟨fin_years, years, panels, info, h1, h2, h3, h4, rfl⟩ :=
      calculate_indices_inv h
    have hpanels : panels = p :: rest := by
      simp [getField, jLookup] at hp
      exact hp
    subst hpanels
    cases years with
    | nil =>
      rw [show processYears J.null ([] : List J) = .ok [] from rfl] at h3
      exact absurd (Except.ok.inj h3) (by simp)
    | cons y ys2 =>
      obtain ⟨panel, more, hyp, hrest, heq⟩ := processYears_cons_inv h3
      have hpp : panel = p := (List.cons.inj heq).1.symm
      subst hpp
      exact (yearPanel_null_prev hyp).1

theorem panel_categories_amended_witness :
    (∃ year prof growth cost eff safety cfi constr,
      emptyPanel = J.obj [("YEAR", year), ("収益性指標", prof), ("成長性指標", growth),
        ("コスト構造・固定費分析", cost), ("効率性指標", eff),
        ("安全性・財務健全性", safety), ("キャッシュフロー関連指標", cfi),
        ("建設業特有指標", constr)] ∧
      (∃ v1 v2 v3 v4 v5 v6 v7, prof = J.obj [("売上総利益率", v1), ("原価率", v2),
        ("販管費率", v3), ("営業利益率", v4), ("経常利益率", v5), ("純利益率", v6),
        ("EBITDA", v7)]) ∧
      (growth = J.null ∨ ∃ g1 g2 g3 g4, growth = J.obj [("売上高成長率", g1),
        ("営業利益成長率", g2), ("経常利益成長率", g3), ("当期純利益成長率", g4)]) ∧
      (∃ w1 w2 w3, cost = J.obj [("人件費率", w1), ("減価償却費率", w2),
        ("付加価値額（売上総利益−人件費）", w3)]) ∧
      (∃ x1 x2 x3, eff = J.obj [("総資産回転率", x1), ("ROA", x2), ("ROE", x3)]) ∧
      (∃ y1 y2 y3 y4, safety = J.obj [("流動比率", y1), ("当座比率", y2),
        ("自己資本比率", y3), ("D/Eレシオ", y4)]) ∧
      (∃ z1 z2 z3 z4, cfi = J.obj [("営業CFマージン", z1), ("フリーキャッシュフロー", z2),
        ("営業CF÷EBITDA", z3), ("現金増減額", z4)]) ∧
      (∃ u1 u2 u3 u4, constr = J.obj [("工事運転資本", u1), ("ネット運転資本（簡易）", u2),
        ("売上債権回転期間（日）", u3), ("仕入債務回転期間（日）", u4)])) ∧
    getField emptyPanel "成長性指標" = some J.null :=
  ⟨panel_categories_amended.1 company0
      (J.obj [("企業情報", J.obj []), ("指標", J.arr [emptyPanel])]) [emptyPanel]
      (by with_unfolding_all rfl) (by with_unfolding_all rfl) emptyPanel
      (by simp),
   panel_categories_amended.2 company0
      (J.obj [("企業情報", J.obj []), ("指標", J.arr [emptyPanel])]) emptyPanel []
      (by with_unfolding_all rfl) (by with_unfolding_all rfl)⟩

/-- C9: every present percentage indicator is an underlying ratio
times 100 rounded to two decimals; every present plain-ratio indicator
(asset turnover, D/E, operating-CF÷EBITDA, turnover days) is rounded to
two decimals; the raw currency-amount indicators (EBITDA, free cash
flow, construction working capital, simplified net working capital,
value added, cash-balance delta) are exact unrounded sums/differences
of their operands. -/
theorem rounding_policy :
    (∀ pl p : J, calc_profitability pl = .ok p →
      pctShaped (getField p "売上総利益率") ∧ pctShaped (getField p "原価率") ∧
      pctShaped (getField p "販管費率") ∧ pctShaped (getField p "営業利益率") ∧
      pctShaped (getField p "経常利益率") ∧ pctShaped (getField p "純利益率")) ∧
    (∀ pl pp g : J, calc_growth pl pp = .ok g → g = J.null ∨
      (pctShaped (getField g "売上高成長率") ∧ pctShaped (getField g "営業利益成長率") ∧
       pctShaped (getField g "経常利益成長率") ∧ pctShaped (getField g "当期純利益成長率"))) ∧
    (∀ pl p : J, calc_cost_structure pl = .ok p →
      pctShaped (getField p "人件費率") ∧ pctShaped (getField p "減価償却費率")) ∧
    (∀ pl bs bp p : J, calc_efficiency pl bs bp = .ok p →
      ratioShaped (getField p "総資産回転率") ∧ pctShaped (getField p "ROA") ∧
      pctShaped (getField p "ROE")) ∧
    (∀ bs p : J, calc_safety bs = .ok p →
      pctShaped (getField p "流動比率") ∧ pctShaped (getField p "当座比率") ∧
      pctShaped (getField p "自己資本比率") ∧ ratioShaped (getField p "D/Eレシオ")) ∧
    (∀ pl cf cp p : J, calc_cashflow pl cf cp = .ok p →
      pctShaped (getField p "営業CFマージン") ∧ ratioShaped (getField p "営業CF÷EBITDA")) ∧
    (∀ pl bs bp p : J, calc_construction pl bs bp = .ok p →
      ratioShaped (getField p "売上債権回転期間（日）") ∧
      ratioShaped (getField p "仕入債務回転期間（日）")) ∧
    (∀ pl p : J, ∀ a b : ℚ, calc_profitability pl = .ok p →
      dget pl "営業利益" = .ok (J.num a) →
      acc_sga_detail pl "販売費及び一般管理費_減価償却費" = .ok (J.num b) →
      getField p "EBITDA" = some (J.num (a + b))) ∧
    (∀ pl p : J, ∀ a b : ℚ, calc_cost_structure pl = .ok p →
      acc_gross_profit pl = .ok (J.num a) →
      acc_sga_detail pl "販売費及び一般管理費_人件費" = .ok (J.num b) →
      getField p "付加価値額（売上総利益−人件費）" = some (J.num (a - b))) ∧
    (∀ pl cf cp p : J, ∀ a b : ℚ, calc_cashflow pl cf cp = .ok p →
      dget cf "営業活動によるキャッシュ・フロー" = .ok (J.num a) →
      dget cf "投資活動によるキャッシュ・フロー" = .ok (J.num b) →
      getField p "フリーキャッシュフロー" = some (J.num (a + b))) ∧
    (∀ pl cf cp p : J, ∀ a b : ℚ, calc_cashflow pl cf cp = .ok p →
      dget cf "現金及び現金同等物期末残高" = .ok (J.num a) →
      ifTruthy cp (dget cp "現金及び現金同等物期末残高") = .ok (J.num b) →
      getField p "現金増減額" = some (J.num (a - b))) ∧
    (∀ pl bs bp p : J, ∀ a b c d : ℚ, calc_construction pl bs bp = .ok p →
      acc_current_assets_detail bs "流動資産_完成工事未収入金" = .ok (J.num a) →
      acc_current_assets_detail bs "流動資産_未成工事支出金" = .ok (J.num b) →
      acc_current_liab_detail bs "流動負債_工事未払金" = .ok (J.num c) →
      acc_current_liab_detail bs "流動負債_未成工事受入金" = .ok (J.num d) →
      getField p "工事運転資本" = some (J.num ((a + b) - (c + d)))) ∧
    (∀ pl bs bp p : J, ∀ a b c d : ℚ, calc_construction pl bs bp = .ok p →
      acc_current_assets bs = .ok (J.num a) →
      acc_current_assets_detail bs "流動資産_現金及び預金" = .ok (J.num b) →
      acc_current_liab bs = .ok (J.num c) →
      acc_current_liab_detail bs "流動負債_短期借入金" = .ok (J.num d) →
      getField p "ネット運転資本（簡易）" = some (J.num ((a - b) - (c - d)))) ∧
    indicator (calc_profitability (J.obj [("営業利益", J.num (1/3))])) "EBITDA" =
      some (J.num (1/3)) := by
  refine ⟨?_, ?_, ?_, ?_, ?_, ?_, ?_, ?_, ?_, ?_, ?_, ?_, ?_, ?_⟩
  · intro pl p h
    obtain ⟨_, _, _, _, _, _, _, _, v1, v2, v3, v4, v5, v6, v7,
      _, _, _, _, _, _, _, _, f1, f2, f3, f4, f5, f6, _, rfl⟩ :=
      calc_profitability_inv h
    simp only [getField, jLookup]
    norm_num
    exact ⟨pctShaped_of_pctDiv f1, pctShaped_of_pctDiv f2, pctShaped_of_pctDiv f3,
      pctShaped_of_pctDiv f4, pctShaped_of_pctDiv f5, pctShaped_of_pctDiv f6⟩
  · intro pl pp g h
    by_cases hpp : pp = J.null
    · subst hpp
      rw [calc_growth_null] at h
      exact Or.inl (Except.ok.inj h).symm
    · rw [calc_growth_nonnull hpp] at h
      obtain ⟨_, _, _, _, _, _, _, _, g1, g2, g3, g4,
        _, _, _, _, _, _, _, _, f1, f2, f3, f4, rfl⟩ := calc_growth_body_inv h
      refine Or.inr ?_
      simp only [getField, jLookup]
      norm_num
      exact ⟨pctShaped_of_growthEntry f1, pctShaped_of_growthEntry f2,
        pctShaped_of_growthEntry f3, pctShaped_of_growthEntry f4⟩
  · intro pl p h
    obtain ⟨_, _, _, _, w1, w2, w3, _, _, _, _, f1, f2, _, rfl⟩ :=
      calc_cost_structure_inv h
    simp only [getField, jLookup]
    norm_num
    exact ⟨pctShaped_of_pctDiv f1, pctShaped_of_pctDiv f2⟩
  · intro pl bs bp p h
    obtain ⟨_, _, _, _, _, _, _, _, _, x1, x2, x3,
      _, _, _, _, _, _, _, _, _, f1, f2, f3, rfl⟩ := calc_efficiency_inv h
    simp only [getField, jLookup]
    norm_num
    exact ⟨ratioShaped_of_round_val f1, pctShaped_of_pctDiv f2,
      pctShaped_of_pctDiv f3⟩
  · intro bs p h
    obtain ⟨_, _, _, _, _, _, _, _, _, _, _, _, d4, y1, y2, y3, y4,
      _, _, _, _, _, _, _, _, _, _, _, _, f1, f2, f3, _, f5, rfl⟩ :=
      calc_safety_inv h
    simp only [getField, jLookup]
    norm_num
    exact ⟨pctShaped_of_pctDiv f1, pctShaped_of_pctDiv f2,
      pctShaped_of_pctDiv f3, ratioShaped_of_round_val f5⟩
  · intro pl cf cp p h
    obtain ⟨_, _, _, _, _, _, _, _, d3, z1, z2, z3, z4,
      _, _, _, _, _, _, _, _, f1, _, _, f4, _, rfl⟩ := calc_cashflow_inv h
    simp only [getField, jLookup]
    norm_num
    exact ⟨pctShaped_of_pctDiv f1, ratioShaped_of_round_val f4⟩
  · intro pl bs bp p h
    obtain ⟨_, _, _, _, _, _, _, _, _, _, _, _, _, _, _, _, _, _, _, _,
      u3, _, _, _, _, u4, _, _, _, _, _, _, _, _, _, _, _, _, _, _, _, _,
      _, _, _, _, f21, _, _, _, _, f26, rfl⟩ := calc_construction_inv h
    simp only [getField, jLookup]
    norm_num
    exact ⟨ratioShaped_of_turnoverDays f21, ratioShaped_of_turnoverDays f26⟩
  · intro pl p a b h hop hdep
    obtain ⟨_, _, _, _, op_income, _, _, dep, _, _, _, _, _, _, v7,
      _, _, _, _, e5, _, _, e8, _, _, _, _, _, _, f7, rfl⟩ :=
      calc_profitability_inv h
    have h1 : op_income = J.num a := Except.ok.inj (e5.symm.trans hop)
    have h2 : dep = J.num b := Except.ok.inj (e8.symm.trans hdep)
    subst h1; subst h2
    rw [safe_add_two_nums] at f7
    have : v7 = J.num (a + b) := (Except.ok.inj f7).symm
    subst this
    simp [getField, jLookup]
  · intro pl p a b h hg hp
    obtain ⟨_, gross, personnel, _, _, _, w3, _, e2, e3, _, _, _, f3, rfl⟩ :=
      calc_cost_structure_inv h
    have h1 : gross = J.num a := Except.ok.inj (e2.symm.trans hg)
    have h2 : personnel = J.num b := Except.ok.inj (e3.symm.trans hp)
    subst h1; subst h2
    have : w3 = J.num (a - b) := (Except.ok.inj f3).symm
    subst this
    simp [getField, jLookup]
  · intro pl cf cp p a b h ha hb
    obtain ⟨_, _, _, _, op_cf, inv_cf, _, _, _, _, z2, _, _,
      _, _, _, _, e5, e6, _, _, _, f2, _, _, _, rfl⟩ := calc_cashflow_inv h
    have h1 : op_cf = J.num a := Except.ok.inj (e5.symm.trans ha)
    have h2 : inv_cf = J.num b := Except.ok.inj (e6.symm.trans hb)
    subst h1; subst h2
    rw [safe_add_two_nums] at f2
    have : z2 = J.num (a + b) := (Except.ok.inj f2).symm
    subst this
    simp [getField, jLookup]
  · intro pl cf cp p a b h ha hb
    obtain ⟨_, _, _, _, _, _, end_cash, begin_cash, _, _, _, _, z4,
      _, _, _, _, _, _, e7, e8, _, _, _, _, f5, rfl⟩ := calc_cashflow_inv h
    have h1 : end_cash = J.num a := Except.ok.inj (e7.symm.trans ha)
    have h2 : begin_cash = J.num b := Except.ok.inj (e8.symm.trans hb)
    subst h1; subst h2
    have : z4 = J.num (a - b) := (Except.ok.inj f5).symm
    subst this
    simp [getField, jLookup]
  · intro pl bs bp p a b c d h ha hb hc hd
    obtain ⟨constr_ar, wip, constr_ap, adv, s1, s2, u1, _, _, _, _, _, _, _,
      _, _, _, _, _, _, _, _, _, _, _, _, e1, e2, e3, e4, e5, e6, e7,
      _, _, _, _, _, _, _, _, _, _, _, _, _, _, _, _, _, _, _, _, rfl⟩ :=
      calc_construction_inv h
    have h1 : constr_ar = J.num a := Except.ok.inj (e1.symm.trans ha)
    have h2 : wip = J.num b := Except.ok.inj (e2.symm.trans hb)
    have h3 : constr_ap = J.num c := Except.ok.inj (e3.symm.trans hc)
    have h4 : adv = J.num d := Except.ok.inj (e4.symm.trans hd)
    subst h1; subst h2; subst h3; subst h4
    rw [safe_add_two_nums] at e5 e6
    have hs1 : s1 = J.num (a + b) := (Except.ok.inj e5).symm
    have hs2 : s2 = J.num (c + d) := (Except.ok.inj e6).symm
    subst hs1; subst hs2
    have : u1 = J.num ((a + b) - (c + d)) := (Except.ok.inj e7).symm
    subst this
    simp [getField, jLookup]
  · intro pl bs bp p a b c d h ha hb hc hd
    obtain ⟨_, _, _, _, _, _, _, ca, cash, cl, short_debt, n1, n2, u2,
      _, _, _, _, _, _, _, _, _, _, _, _, _, _, _, _, _, _, _,
      e8, e9, e10, e11, e12, e13, e14, _, _, _, _, _, _, _, _, _, _, _,
      _, rfl⟩ := calc_construction_inv h
    have h1 : ca = J.num a := Except.ok.inj (e8.symm.trans ha)
    have h2 : cash = J.num b := Except.ok.inj (e9.symm.trans hb)
    have h3 : cl = J.num c := Except.ok.inj (e10.symm.trans hc)
    have h4 : short_debt = J.num d := Except.ok.inj (e11.symm.trans hd)
    subst h1; subst h2; subst h3; subst h4
    have hn1 : n1 = J.num (a - b) := (Except.ok.inj e12).symm
    have hn2 : n2 = J.num (c - d) := (Except.ok.inj e13).symm
    subst hn1; subst hn2
    have : u2 = J.num ((a - b) - (c - d)) := (Except.ok.inj e14).symm
    subst this
    simp [getField, jLookup]
  · with_unfolding_all rfl

theorem rounding_policy_witness :
    pctShaped (getField (J.obj [("売上総利益率", J.num 30), ("原価率", J.num 70),
      ("販管費率", J.null), ("営業利益率", J.num 5), ("経常利益率", J.null),
      ("純利益率", J.null), ("EBITDA", J.num 80)]) "売上総利益率") ∧
    getField (J.obj [("売上総利益率", J.num 30), ("原価率", J.num 70),
      ("販管費率", J.null), ("営業利益率", J.num 5), ("経常利益率", J.null),
      ("純利益率", J.null), ("EBITDA", J.num 50)]) "EBITDA" =
      some (J.num (20 + 30)) := by
  constructor
  · have := (rounding_policy.1 (J.obj [("売上高", J.obj [("合計", J.num 1000)]),
      ("売上総利益", J.obj [("合計", J.num 300)]), ("売上原価", J.obj [("合計", J.num 700)]),
      ("営業利益", J.num 50), ("販売費及び一般管理費",
        J.obj [("内訳", J.obj [("販売費及び一般管理費_減価償却費", J.num 30)])])])
      (J.obj [("売上総利益率", J.num 30), ("原価率", J.num 70),
        ("販管費率", J.null), ("営業利益率", J.num 5), ("経常利益率", J.null),
        ("純利益率", J.null), ("EBITDA", J.num 80)]) (by with_unfolding_all rfl)).1
    exact this
  · exact rounding_policy.2.2.2.2.2.2.2.1
      (J.obj [("売上高", J.obj [("合計", J.num 1000)]),
        ("売上総利益", J.obj [("合計", J.num 300)]), ("売上原価", J.obj [("合計", J.num 700)]),
        ("営業利益", J.num 20), ("販売費及び一般管理費",
          J.obj [("内訳", J.obj [("販売費及び一般管理費_減価償却費", J.num 30)])])])
      (J.obj [("売上総利益率", J.num 30), ("原価率", J.num 70),
        ("販管費率", J.null), ("営業利益率", J.num 2), ("経常利益率", J.null),
        ("純利益率", J.null), ("EBITDA", J.num 50)]) 20 30
      (by with_unfolding_all rfl) (by with_unfolding_all rfl)
      (by with_unfolding_all rfl)

/-- C7: on well-formed input (statement values numbers or absent,
statement groups mappings) computing a company's indices never raises:
it always yields a full result whose every panel has `YEAR` plus all 7
categories.  Every field accessor is an `accPath` navigation, and such
a navigation returns absent — never zero, never an error — as soon as
any level of its path is missing (or explicitly `None`). -/
theorem no_fatal_error_on_wellformed :
    (∀ cd : J, wfCompany cd → ∃ info panels, calculate_indices cd =
      .ok (J.obj [("企業情報", info), ("指標", J.arr panels)]) ∧
      ∀ panel ∈ panels, ∃ year prof growth cost eff safety cfi constr,
        panel = J.obj [("YEAR", year), ("収益性指標", prof), ("成長性指標", growth),
          ("コスト構造・固定費分析", cost), ("効率性指標", eff),
          ("安全性・財務健全性", safety), ("キャッシュフロー関連指標", cfi),
          ("建設業特有指標", constr)]) ∧
    (∀ pl : J, acc_revenue pl = accPath pl ["売上高", "合計"]) ∧
    (∀ pl : J, acc_cogs pl = accPath pl ["売上原価", "合計"]) ∧
    (∀ pl : J, acc_gross_profit pl = accPath pl ["売上総利益", "合計"]) ∧
    (∀ pl : J, acc_sga pl = accPath pl ["販売費及び一般管理費", "合計"]) ∧
    (∀ pl : J, ∀ k : String,
      acc_sga_detail pl k = accPath pl ["販売費及び一般管理費", "内訳", k]) ∧
    (∀ bs : J, acc_total_assets bs = accPath bs ["資産", "総資産"]) ∧
    (∀ bs : J, acc_current_assets bs = accPath bs ["資産", "流動資産", "合計"]) ∧
    (∀ bs : J, ∀ k : String,
      acc_current_assets_detail bs k = accPath bs ["資産", "流動資産", "内訳", k]) ∧
    (∀ bs : J, acc_current_liab bs =
      accPath bs ["負債・純資産", "負債", "内訳", "流動負債", "合計"]) ∧
    (∀ bs : J, ∀ k : String, acc_current_liab_detail bs k =
      accPath bs ["負債・純資産", "負債", "内訳", "流動負債", "内訳", k]) ∧
    (∀ bs : J, ∀ k : String, acc_fixed_liab_detail bs k =
      accPath bs ["負債・純資産", "負債", "内訳", "固定負債", "内訳", k]) ∧
    (∀ bs : J, acc_net_assets bs = accPath bs ["負債・純資産", "純資産", "合計"]) ∧
    (∀ m : List (String × J), ∀ k : String, ∀ ks : List String,
      jLookup m k = none → accPath (J.obj m) (k :: ks) = .ok J.null) ∧
    (∀ m : List (String × J), ∀ k : String, ∀ v : J, ∀ ks : List String,
      jLookup m k = some v → ks ≠ [] →
      accPath (J.obj m) (k :: ks) = accPath (jOrEmpty v) ks) ∧
    (∀ ks : List String, ks ≠ [] → accPath (jOrEmpty J.null) ks = .ok J.null) := by
  refine ⟨?_, fun pl => rfl, fun pl => rfl, fun pl => rfl, fun pl => rfl,
    fun pl k => rfl, fun bs => rfl, fun bs => rfl, fun bs k => rfl,
    fun bs => rfl, fun bs k => rfl, fun bs k => rfl, fun bs => rfl,
    fun m k ks h => accPath_missing h, fun m k v ks h hne => accPath_step h hne,
    accPath_from_null⟩
  intro cd hwf
  obtain ⟨info, panels, hok⟩ := calculate_indices_total hwf
  refine ⟨info, panels, hok, ?_⟩
  intro panel hmem
  obtain ⟨fin_years, years, panels2, info2, h1, h2, h3, h4, heq⟩ :=
    calculate_indices_inv hok
  have hpp : panels2 = panels := by
    have := (J.obj.inj heq)
    simp at this
    exact this.2.symm
  subst hpp
  obtain ⟨pv, yd, hyp⟩ := processYears_mem h3 panel hmem
  obtain ⟨year, pl, bs, cf, pl_prev, bs_prev, cf_prev, prof, growth, cost,
    eff, safety, cfi, constr, _, _, _, _, _, _, _, _, _, _, _, _, _, _, rfl⟩ :=
    yearPanel_inv hyp
  exact ⟨year, prof, growth, cost, eff, safety, cfi, constr, rfl⟩

theorem no_fatal_error_on_wellformed_witness :
    (∃ info panels, calculate_indices company0 =
      .ok (J.obj [("企業情報", info), ("指標", J.arr panels)]) ∧
      ∀ panel ∈ panels, ∃ year prof growth cost eff safety cfi constr,
        panel = J.obj [("YEAR", year), ("収益性指標", prof), ("成長性指標", growth),
          ("コスト構造・固定費分析", cost), ("効率性指標", eff),
          ("安全性・財務健全性", safety), ("キャッシュフロー関連指標", cfi),
          ("建設業特有指標", constr)]) ∧
    accPath (J.obj []) ["売上高", "合計"] = .ok J.null := by
  constructor
  · apply no_fatal_error_on_wellformed.1 company0
    refine ⟨[("財務データ", J.arr [J.obj []])], rfl, ?_⟩
    show wfFin (some (J.arr [J.obj []]))
    intro y hy
    simp at hy
    subst hy
    exact ⟨[], rfl, trivial, trivial, trivial⟩
  · exact no_fatal_error_on_wellformed.2.2.2.2.2.2.2.2.2.2.2.2.2.1 [] "売上高"
      ["合計"] rfl

end Claims
